/-
Verification of the llmgateway chat-completions gateway
(packages/models/src/models.ts) against its natural-language
specification.

The TypeScript source is shallowly embedded: each JS function the claims
depend on is transcribed as an executable Lean definition.  JS `null` /
`undefined` become `Option`, JS number truthiness (`!x` true for null,
undefined and 0) is modelled explicitly, and `Math.round` on the
non-negative rationals arising here is `⌊q + 1/2⌋`.
-/
import Mathlib

namespace LLMGateway

/-! ## JavaScript primitives -/

/-- JS `Math.round` for the non-negative rationals that occur in this code
(`Math.round(x)` = floor of `x + 1/2` for `x ≥ 0`). -/
def jsRound (q : ℚ) : ℤ := ⌊q + 1/2⌋

/-- JS truthiness of an optional numeric value: `!x` is true when the value
is `null`/`undefined` or `0`. -/
def numFalsy (x : Option ℚ) : Bool :=
  match x with
  | none => true
  | some q => q == 0

/-- ASCII case-folding of one character (JS `toLowerCase` restricted to
ASCII; upstream finish reasons are ASCII strings). -/
def asciiLowerChar (c : Char) : Char :=
  if 65 ≤ c.toNat ∧ c.toNat ≤ 90 then Char.ofNat (c.toNat + 32) else c

/-- ASCII case-folding of a string (JS `toLowerCase` on ASCII input). -/
def asciiLower (s : String) : String := ⟨s.data.map asciiLowerChar⟩

/-- JS `s?.toLowerCase() || "stop"` applied to an optional string: `null`
and the empty string both fall back to `"stop"`. -/
def jsLowerOrStop (o : Option String) : String :=
  match o with
  | none => "stop"
  | some s => if asciiLower s = "" then "stop" else asciiLower s

/-- Character-level worker for JS `String.prototype.split` with a
non-empty separator; the fuel argument (instantiated with the input
length plus one) only makes the recursion structural. -/
def jsSplitAux (sep : List Char) : ℕ → List Char → List Char → List (List Char)
  | 0, acc, _ => [acc.reverse]
  | _ + 1, acc, [] => [acc.reverse]
  | n + 1, acc, c :: cs =>
    if sep.isPrefixOf (c :: cs) then
      acc.reverse :: jsSplitAux sep n [] ((c :: cs).drop sep.length)
    else
      jsSplitAux sep n (c :: acc) cs

/-- JS `s.split(sep)` for a non-empty separator: leftmost-first,
non-overlapping, keeping empty pieces (`"Bearer x".split("Bearer ") =
["", "x"]`). -/
def jsSplit (s sep : String) : List String :=
  (jsSplitAux sep.data (s.data.length + 1) [] s.data).map (fun l => ⟨l⟩)

/-- JS `s.includes(c)` for a one-character needle. -/
def jsContainsChar (s : String) (c : Char) : Bool := s.data.contains c

/-- JS `parts.join(sep)`. -/
def jsJoin (sep : String) (parts : List String) : String :=
  ⟨sep.data.intercalate (parts.map (fun p => p.data))⟩

/-! ## Token estimation (models.ts `estimateTokensFromContent`, and the
inline fallbacks of `estimateTokens` / the streaming path)

Source (line 432): `Math.max(1, Math.round(content.length / 4))`.
Source (line 407): `messages.reduce((acc,m) => acc + (m.content?.length||0), 0) / 4`
  (no rounding, no minimum).
Source (line 418): `content.length / 4` (no rounding, no minimum). -/

/-- `estimateTokensFromContent` from models.ts line 432:
`Math.max(1, Math.round(content.length / 4))` where `content.length = L`. -/
def estimateTokensFromContent (L : ℕ) : ℤ :=
  max 1 (jsRound ((L : ℚ) / 4))

/-- The `estimateTokens` prompt fallback (models.ts line 407): the sum of
the message content lengths divided by 4, as a JS float — no rounding and
no minimum. -/
def unaryPromptFallback (lens : List ℕ) : ℚ :=
  ((lens.foldl (· + ·) 0 : ℕ) : ℚ) / 4

/-- The `estimateTokens` completion fallback (models.ts line 418):
`content.length / 4`, unrounded. -/
def unaryCompletionFallback (L : ℕ) : ℚ := (L : ℚ) / 4

/-- The streaming prompt fallback (models.ts lines 2307 and 2532):
`Math.round(sum of content lengths / 4)` — rounded but with no minimum. -/
def streamingPromptFallback (lens : List ℕ) : ℤ :=
  jsRound (((lens.foldl (· + ·) 0 : ℕ) : ℚ) / 4)

/-! ## Finish-reason normalization

models.ts `transformToOpenAIFormat` (lines 607-740) and
`transformStreamingChunkToOpenAIFormat` (lines 745-1027) normalize the
upstream finish reason with a different expression in each provider
branch.  Each expression is transcribed below. -/

/-- Google branch of `transformToOpenAIFormat` (lines 642-645):
`finishReason === "STOP" ? "stop" : finishReason?.toLowerCase() || "stop"`. -/
def googleUnaryFinishReason (finishReason : Option String) : String :=
  if finishReason = some "STOP" then "stop" else jsLowerOrStop finishReason

/-- Anthropic branch of `transformToOpenAIFormat` (lines 681-684):
`finishReason === "end_turn" ? "stop" : finishReason?.toLowerCase() || "stop"`. -/
def anthropicUnaryFinishReason (finishReason : Option String) : String :=
  if finishReason = some "end_turn" then "stop" else jsLowerOrStop finishReason

/-- inference.net / together.ai / groq branch of `transformToOpenAIFormat`
(line 722): `finishReason || "stop"` — no lowercasing. -/
def groqFamilyUnaryFinishReason (finishReason : Option String) : String :=
  match finishReason with
  | none => "stop"
  | some s => if s = "" then "stop" else s

/-- Anthropic branch of `transformStreamingChunkToOpenAIFormat`
(lines 847-852 and 870-875):
`stopReason === "end_turn" ? "stop" : stopReason === "tool_use" ?
 "tool_calls" : stopReason?.toLowerCase() || "stop"`. -/
def anthropicStreamFinishReason (stopReason : Option String) : String :=
  if stopReason = some "end_turn" then "stop"
  else if stopReason = some "tool_use" then "tool_calls"
  else jsLowerOrStop stopReason

/-- Google branch of `transformStreamingChunkToOpenAIFormat`
(lines 961-964): `finishReason === "STOP" ? "stop" :
finishReason?.toLowerCase() || "stop"`. -/
def googleStreamFinishReason (finishReason : Option String) : String :=
  if finishReason = some "STOP" then "stop" else jsLowerOrStop finishReason

/-- Default (OpenAI-family) branch of
`transformStreamingChunkToOpenAIFormat` (line 1001):
`data.finish_reason || null` — the upstream value passes through with the
empty string collapsed to null and no lowercasing. -/
def openaiStreamFinishReason (finishReason : Option String) : Option String :=
  match finishReason with
  | none => none
  | some s => if s = "" then none else some s

/-! ## Auto-topup pass (models.ts `processAutoTopUp`, lines 3069-3254) -/

/-- Status of a `transaction` row. -/
inductive TxnStatus
  | pending
  | succeeded
  | failed
deriving DecidableEq, Repr

/-- A `credit_topup` transaction row: creation time (ms) and status. -/
structure Txn where
  createdAt : ℤ
  status : TxnStatus
deriving DecidableEq, Repr

/-- An organization as read by the auto-topup pass. -/
structure Org where
  credits : ℚ
  autoTopUpThreshold : Option ℚ
  autoTopUpAmount : Option ℚ
deriving DecidableEq, Repr

/-- JS `Number(x || d)`: `null`/`undefined` and `0` fall back to `d`. -/
def jsNumOr (x : Option ℚ) (d : ℚ) : ℚ :=
  match x with
  | none => d
  | some q => if q == 0 then d else q

/-- The org filter of `processAutoTopUp` (lines 3085-3089):
`Number(org.credits || 0) < Number(org.autoTopUpThreshold || 10)`. -/
def orgNeedsTopUp (org : Org) : Bool :=
  org.credits < jsNumOr org.autoTopUpThreshold 10

/-- The recent-transaction skip of `processAutoTopUp` (lines 3109-3127):
the org is skipped when the most recent `credit_topup` transaction was
created after `now − 1 hour` and its status is `pending` or `failed`. -/
def skipByRecentTxn (recent : Option Txn) (now : ℤ) : Bool :=
  match recent with
  | none => false
  | some t =>
    if now - 60 * 60 * 1000 < t.createdAt then
      t.status == TxnStatus.pending || t.status == TxnStatus.failed
    else false

/-- Outcome of the payment-processor call for one top-up attempt. -/
inductive StripeOutcome
  | succeeded
  | requiresAction
  | otherStatus
  | sdkException
deriving DecidableEq, Repr

/-- One iteration of the `processAutoTopUp` org loop (lines 3091-3243):
returns the transaction row inserted by this pass (with its status after
the payment-intent call), or `none` when the org is skipped.  On
`succeeded` and `requires_action` the row stays `pending` (the webhook is
responsible for flipping it later); any other status and SDK exceptions
mark it `failed`. -/
def processOrgTopUp (org : Org) (recent : Option Txn) (hasDefaultPM : Bool)
    (stripeOut : StripeOutcome) (now : ℤ) : Option Txn :=
  if ¬ orgNeedsTopUp org then none
  else if skipByRecentTxn recent now then none
  else if ¬ hasDefaultPM then none
  else some { createdAt := now,
              status := match stripeOut with
                        | .succeeded => .pending
                        | .requiresAction => .pending
                        | .otherStatus => .failed
                        | .sdkException => .failed }

/-! ## Catalog and the `auto` router (models.ts lines 1525-1550) -/

/-- A `ProviderModelMapping` entry of the catalog. -/
structure ProviderMapping where
  providerId : String
  modelName : String
  inputPrice : Option ℚ := none
  outputPrice : Option ℚ := none
  maxOutput : Option ℕ := none
  streaming : Bool := true
  reasoning : Bool := false
deriving DecidableEq, Repr

/-- A `ModelDefinition` catalog entry (the router reads the `id` field). -/
structure ModelDef where
  id : String
  providers : List ProviderMapping
  jsonOutput : Bool := false
  deprecatedAt : Option ℤ := none
  deactivatedAt : Option ℤ := none
deriving DecidableEq, Repr

/-- Whether a model is past its `deprecatedAt` date
(`modelDef.deprecatedAt && new Date() > modelDef.deprecatedAt`). -/
def isDeprecated (m : ModelDef) (now : ℤ) : Bool :=
  match m.deprecatedAt with
  | some d => now > d
  | none => false

/-- The selection loop of the `auto` route (models.ts lines 1525-1545):
iterate the catalog in declared order skipping the `auto`/`custom` entries
and deprecated models, and pick the first available provider mapping of
the first model that has one. -/
def autoPick (catalog : List ModelDef) (available : List String) (now : ℤ) :
    Option ProviderMapping :=
  (catalog.filterMap (fun m =>
    if m.id = "auto" ∨ m.id = "custom" then none
    else if isDeprecated m now then none
    else (m.providers.filter (fun p => available.contains p.providerId)).head?)).head?

/-- The `auto` routing (models.ts lines 1525-1550): run the selection
loop; afterwards, if the provider is still the `llmgateway` sentinel (or
unset), fall back to `(openai, gpt-4o-mini)`.  Returns
`(usedProvider, usedModel)`. -/
def routeAuto (catalog : List ModelDef) (available : List String) (now : ℤ) :
    String × String :=
  match autoPick catalog available now with
  | some p => if p.providerId = "llmgateway" then ("openai", "gpt-4o-mini")
              else (p.providerId, p.modelName)
  | none => ("openai", "gpt-4o-mini")

/-! ## Log queue worker (models.ts `processLogQueue` / `startWorker`,
lines 3256-3445)

The queue primitives live in `lib/redis`, which is not part of the
handler source; they are modelled from spec §4.10.  `processLogQueue`
itself is transcribed from the source. -/

/-- The payload of a parseable queued log message, with the fields the
worker reads: ids, cost, cached flag, and the strippable message body. -/
structure LogData where
  organizationId : String
  projectId : String
  cost : Option ℚ
  cached : Bool
  messagesContent : Option String
deriving DecidableEq, Repr

/-- A serialized queue message: either parseable into a `LogData` or
invalid (JSON.parse fails). -/
inductive QMsg
  | valid (d : LogData)
  | invalid
deriving DecidableEq, Repr

/-- The worker-visible state: the two queues, the persisted log table and
the per-organization credit balances. -/
structure WorkerState where
  main : List QMsg
  processing : List QMsg
  persisted : List LogData
  credits : String → ℚ

/-- Modelled from the spec: `moveToProcessingQueue` (`lib/redis`, not under
src/) atomically claims up to `n` messages from the head of the main queue
onto the processing queue and returns the claimed batch, or `none` when
the main queue is empty (§4.10 "Claim batch"). -/
def moveToProcessingQueue (st : WorkerState) (n : ℕ) : Option (List QMsg) × WorkerState :=
  if st.main = [] then (none, st)
  else
    (some (st.main.take n),
     { st with main := st.main.drop n, processing := st.processing ++ st.main.take n })

/-- Modelled from the spec: `removeFromProcessingQueue` (`lib/redis`)
acknowledges a just-processed batch of `k` messages by removing it from
the processing queue — the batch is the most recently appended suffix
(§4.10 "Acknowledge"). -/
def removeFromProcessingQueue (st : WorkerState) (k : ℕ) : WorkerState :=
  { st with processing := st.processing.take (st.processing.length - k) }

/-- Modelled from the spec: `recoverProcessingQueue` (`lib/redis`)
atomically moves every message from the processing queue back to the main
queue (§4.10 "Crash recovery"). -/
def recoverProcessingQueue (st : WorkerState) : WorkerState :=
  { st with main := st.main ++ st.processing, processing := [] }

/-- The retention step of `processLogQueue` (lines 3303-3318): when the
row's organization has `retentionLevel == "none"`, the `messages` and
`content` fields are stripped before insert. -/
def applyRetention (retentionNone : String → Bool) (d : LogData) : LogData :=
  if retentionNone d.organizationId then { d with messagesContent := none } else d

/-- The credit-debit accumulation of `processLogQueue` (lines 3324-3343):
a row contributes its cost to its organization's debit when the cost is
truthy, the row is not cached, and the project's mode is not `api-keys`
(a missing project also passes the `project?.mode !== "api-keys"` test). -/
def orgDebit (projectMode : String → Option String) (batch : List LogData)
    (org : String) : ℚ :=
  (batch.filter (fun d =>
      d.organizationId == org && !numFalsy d.cost && !d.cached
        && !(projectMode d.projectId == some "api-keys"))).foldl
    (fun a d => a + d.cost.getD 0) 0

/-- `processLogQueue` (models.ts lines 3256-3373): claim a batch of up to
10 messages; parse each, discarding only invalid ones; if none parse,
acknowledge and return; otherwise apply retention, insert the rows, apply
the batched credit debits and acknowledge.  `persistFails` models a throw
anywhere in the persistence block; its catch recovers the whole batch to
the main queue, and `recoverFails` models that recovery itself throwing,
in which case the messages stay in the processing queue (lines 3357-3372). -/
def processLogQueue (retentionNone : String → Bool)
    (projectMode : String → Option String)
    (persistFails recoverFails : Bool) (st : WorkerState) : WorkerState :=
  match moveToProcessingQueue st 10 with
  | (none, st1) => st1
  | (some messages, st1) =>
    let validMessages := messages.filterMap (fun m =>
      match m with | .valid d => some d | .invalid => none)
    if validMessages = [] then
      removeFromProcessingQueue st1 messages.length
    else if persistFails then
      if recoverFails then st1 else recoverProcessingQueue st1
    else
      let processed := validMessages.map (applyRetention retentionNone)
      let st2 := { st1 with persisted := st1.persisted ++ processed }
      let st3 := { st2 with credits :=
        fun org => st2.credits org - orgDebit projectMode validMessages org }
      removeFromProcessingQueue st3 messages.length

/-- The crash-recovery step at the top of `startWorker` (models.ts lines
3388-3394): messages still in the processing queue when the previous
worker died are moved back to the main queue. -/
def startupRecover (st : WorkerState) : WorkerState := recoverProcessingQueue st

/-! ## Request handler (models.ts `chat.openapi`, lines 1222-3016)

The handler is transcribed stage by stage.  External collaborators that
are not part of the source (the database, `lib/cache`, `lib/costs`, the
provider/catalog tables from `@llmgateway/models`, the `gpt-tokenizer`
library and the upstream HTTP fetch) are supplied through an environment
record `Env`; the theorems quantify over all environments. -/

/-- More JS string helpers: truthiness of an optional string ( `""`,
`null` and `undefined` are falsy). -/
def strTruthy (o : Option String) : Bool :=
  match o with
  | none => false
  | some s => s ≠ ""

/-- JS `x || null` on an optional number: `0` collapses to `null`. -/
def jsNumOrNone (x : Option ℚ) : Option ℚ :=
  if numFalsy x then none else x

/-- A chat message from the request body (`content` as a plain string;
the handler only ever reads its length or concatenates it). -/
structure ReqMsg where
  role : String
  content : Option String
  name : Option String
deriving DecidableEq, Repr

/-- The validated request body fields the handler control flow reads. -/
structure Request where
  model : String
  messages : List ReqMsg
  temperature : Option ℚ
  max_tokens : Option ℕ
  top_p : Option ℚ
  frequency_penalty : Option ℚ
  presence_penalty : Option ℚ
  response_format_json : Bool
  stream : Bool
  reasoning_effort : Option String
deriving DecidableEq, Repr

/-- An `apiKey` row.  The handler looks a key up by token only and never
reads `status` (models.ts lines 1443-1449). -/
structure ApiKey where
  id : String
  projectId : String
  status : String
deriving DecidableEq, Repr

/-- A `project` row. -/
structure Project where
  id : String
  organizationId : String
  mode : String
deriving DecidableEq, Repr

/-- An `organization` row as read by the handler. -/
structure Organization where
  credits : ℚ
deriving DecidableEq, Repr

/-- A `providerKey` row. -/
structure ProviderKey where
  id : String
  provider : String
  token : String
  baseUrl : Option String
  status : String
deriving DecidableEq, Repr

/-- Modelled from the spec: an entry of the static provider table
(`providers` from `@llmgateway/models`, not under src/): the provider id
and whether in-flight requests to it can be canceled (§3 "Provider",
§4.9 step 9). -/
structure ProviderInfo where
  id : String
  cancellation : Bool
deriving DecidableEq, Repr

/-- The cache key.  Modelled from the spec: `generateCacheKey`
(`lib/cache`, not under src/) is a stable canonical fingerprint of these
request fields (§4.4), idealized here as the tuple itself. -/
structure CacheKey where
  model : String
  messages : List ReqMsg
  temperature : Option ℚ
  max_tokens : Option ℕ
  top_p : Option ℚ
  frequency_penalty : Option ℚ
  presence_penalty : Option ℚ
  response_format_json : Bool
deriving DecidableEq, Repr

/-- A cached response, projected to the fields the cache-hit logging path
reads (models.ts lines 1824-1848). -/
structure CachedResponse where
  content : Option String
  reasoningContent : Option String
  finishReason : Option String
  promptTokens : Option ℚ
  completionTokens : Option ℚ
  totalTokens : Option ℚ
  reasoningTokens : Option ℚ
  size : ℕ
deriving DecidableEq, Repr

/-- The output of `parseProviderResponse` (models.ts lines 270-373) on a
successful upstream JSON body.  The parse is a pure projection of the
upstream JSON; the theorems quantify over every possible projection, so
it is supplied by the environment rather than re-derived from raw JSON. -/
structure ParsedResponse where
  content : Option String
  reasoningContent : Option String
  finishReason : Option String
  promptTokens : Option ℚ
  completionTokens : Option ℚ
  totalTokens : Option ℚ
  reasoningTokens : Option ℚ
  cachedTokens : Option ℚ
deriving DecidableEq, Repr

/-- The output of `calculateCosts` (`lib/costs`, not under src/). -/
structure Costs where
  inputCost : Option ℚ
  outputCost : Option ℚ
  cachedInputCost : Option ℚ
  requestCost : Option ℚ
  totalCost : Option ℚ
  estimatedCost : Bool
deriving DecidableEq, Repr

/-- An `HTTPException` thrown by the handler. -/
structure HErr where
  status : ℕ
  message : String
deriving DecidableEq, Repr

/-- The common log fields produced by `createLogEntry` (models.ts lines
208-244).  Generation parameters, messages and custom headers are verbatim
copies of request fields and are omitted here.  `usedMode` is
`providerKeyId ? "api-keys" : "credits"` (line 230, JS string
truthiness). -/
structure BaseLogEntry where
  requestId : String
  organizationId : String
  projectId : String
  apiKeyId : String
  usedMode : String
  usedModel : String
  usedProvider : String
  requestedModel : String
  requestedProvider : Option String
  mode : String
deriving DecidableEq, Repr

/-- `createLogEntry` (models.ts lines 208-244). -/
def createLogEntry (requestId : String) (project : Project) (apiKey : ApiKey)
    (providerKeyId : Option String) (usedModel usedProvider requestedModel : String)
    (requestedProvider : Option String) : BaseLogEntry :=
  { requestId,
    organizationId := project.organizationId,
    projectId := apiKey.projectId,
    apiKeyId := apiKey.id,
    usedMode := if strTruthy providerKeyId then "api-keys" else "credits",
    usedModel, usedProvider, requestedModel, requestedProvider,
    mode := project.mode }

/-- A full log row as passed to `insertLog`, restricted to the fields the
claims inspect plus the standard flags. -/
structure LogRow where
  base : BaseLogEntry
  duration : ℕ
  responseSize : ℕ
  finishReason : Option String
  promptTokens : Option ℚ
  completionTokens : Option ℚ
  totalTokens : Option ℚ
  hasError : Bool
  streamed : Bool
  canceled : Bool
  cached : Bool
  inputCost : Option ℚ
  outputCost : Option ℚ
  cachedInputCost : Option ℚ
  requestCost : Option ℚ
  cost : Option ℚ
  estimatedCost : Option Bool
deriving DecidableEq, Repr

/-- `getFinishReasonForError` (models.ts lines 179-181). -/
def getFinishReasonForError (status : ℕ) : String :=
  if 500 ≤ status then "upstream_error" else "gateway_error"

/-- Result of the external `getProviderEndpoint` call (from
`@llmgateway/models`, not under src/): a URL, a missing URL, or a throw
(the handler catches and maps the throw, lines 1753-1782). -/
inductive EndpointResult
  | ok (url : String)
  | noUrl
  | thrown
deriving DecidableEq, Repr

/-- Outcome of the single non-streaming upstream `fetch`
(models.ts lines 2753-2771): an `AbortError`, another exception
(rethrown), a non-2xx response, or a parsed 2xx JSON body. -/
inductive UnaryFetchOutcome
  | abortError
  | transportError
  | httpError (status : ℕ) (textLen : ℕ)
  | ok (parsed : ParsedResponse) (rawSize : ℕ)
deriving DecidableEq, Repr

/-- The fields of a parsed upstream streaming JSON object that the
non-google streaming loop reads (models.ts lines 2361-2547): the
anthropic event fields and the OpenAI-family chunk fields. -/
structure StreamData where
  type? : Option String
  deltaText : Option String
  deltaPartialJson : Option String
  deltaStopReason : Option String
  stopReason : Option String
  hasUsage : Bool
  usageInputTokens : Option ℚ
  usageOutputTokens : Option ℚ
  usageReasoningOutputTokens : Option ℚ
  usageCacheReadInputTokens : Option ℚ
  choiceDeltaContent : Option String
  choiceDeltaReasoning : Option String
  choiceFinishReason : Option String
  usagePromptTokens : Option ℚ
  usageCompletionTokens : Option ℚ
  usageTotalTokens : Option ℚ
  usageReasoningTokens : Option ℚ
  usageCachedTokens : Option ℚ
deriving DecidableEq, Repr

/-- A `StreamData` with every field absent, for building test events. -/
def emptyStreamData : StreamData :=
  ⟨none, none, none, none, none, false, none, none, none, none,
   none, none, none, none, none, none, none, none⟩

/-- One complete line of an SSE-framed upstream stream, after the
newline-buffered reassembly of models.ts lines 2285-2296: the
`data: [DONE]` terminator, a parsed `data:` JSON payload, an unparseable
`data:` payload (caught and skipped, lines 2548-2554), or a non-`data:`
line (skipped). -/
inductive StreamLine
  | doneLine
  | dataLine (d : StreamData)
  | badJson
  | otherLine
deriving DecidableEq, Repr

/-- A parsed top-level JSON object of a google raw-JSON stream, as
produced by the prefix-parse scanner of models.ts lines 2139-2282 (the
scanner and its 10 MiB buffer cap are abstracted into this sequence). -/
structure GoogleData where
  text : Option String
  finishReason : Option String
  hasUsageMetadata : Bool
  promptTokenCount : Option ℚ
  candidatesTokenCount : Option ℚ
  totalTokenCount : Option ℚ
deriving DecidableEq, Repr

/-- The upstream response body of a streaming request: SSE lines for the
non-google providers or raw JSON objects for google, each with a flag for
an `AbortError` thrown by `reader.read()` after the listed items
(models.ts lines 2560-2565). -/
inductive StreamBody
  | sse (lines : List StreamLine) (aborted : Bool)
  | googleRaw (objs : List GoogleData) (aborted : Bool)
deriving DecidableEq, Repr

/-- Outcome of the streaming upstream `fetch` (models.ts lines 1924-2090):
an `AbortError` (client canceled before the response), another exception
(rethrown), a non-2xx response, a 2xx response without a body, or a body. -/
inductive StreamFetchOutcome
  | abortError
  | transportError
  | httpError (status : ℕ) (textLen : ℕ)
  | okNoBody
  | ok (body : StreamBody)
deriving DecidableEq, Repr

/-- An SSE event written to the client (`stream.writeSSE`), classified by
kind; chunk payloads are carried by the normalization functions above. -/
inductive SSEEvent
  | dataChunk
  | usageChunk
  | doneEvent
  | errorEvent
  | canceledEvent
deriving DecidableEq, Repr

/-- The environment of one request: the static tables, the request, and
every external collaborator the handler consults.  Theorems quantify over
all environments. -/
structure Env where
  catalog : List ModelDef
  provs : List ProviderInfo
  req : Request
  authHeader : Option String
  requestId : String
  apiKeyLookup : String → Option ApiKey
  projectLookup : String → Option Project
  orgLookup : String → Option Organization
  customProviderExists : String → String → Bool
  providerKeyLookup : String → String → Option ProviderKey
  customProviderKeyLookup : String → String → Option ProviderKey
  activeProviderKeys : String → List ProviderKey
  hasEnvToken : String → Bool
  envVarOf : String → Option String
  envValue : String → Option String
  endpointOf : String → String → EndpointResult
  cachingEnabled : Bool
  cacheDuration : ℕ
  cacheGet : CacheKey → Option CachedResponse
  now : ℤ
  elapsedMs : ℕ
  unaryFetch : UnaryFetchOutcome
  streamFetch : StreamFetchOutcome
  costs : Costs
  encodeChatLen : Option ℕ
  encodeLen : String → Option ℕ

/-- The model-input resolution of the handler (models.ts lines 1249-1330):
`auto`/`custom`, `provider/model` (with unknown prefixes treated as
custom provider names), bare catalog ids, bare provider-model names
(rejected with a prefix hint), and unknown models (rejected). -/
structure ParsedModel where
  requestedModel : String
  requestedProvider : Option String
  customProviderName : Option String
deriving DecidableEq, Repr

/-- Transcription of models.ts lines 1249-1330. -/
def parseModelInput (catalog : List ModelDef) (provs : List ProviderInfo)
    (modelInput : String) : Except HErr ParsedModel :=
  if modelInput = "auto" ∨ modelInput = "custom" then
    .ok ⟨modelInput, some "llmgateway", none⟩
  else if jsContainsChar modelInput '/' then
    let split := jsSplit modelInput "/"
    let providerCandidate := split.headD ""
    let knownProvider := provs.find? (fun p => p.id = providerCandidate)
    let requestedProvider := if knownProvider.isNone then "custom" else providerCandidate
    let customProviderName := if knownProvider.isNone then some providerCandidate else none
    let modelName := jsJoin "/" split.tail
    if requestedProvider = "custom" then
      .ok ⟨modelName, some "custom", customProviderName⟩
    else
      match (catalog.find? (fun m => m.id = modelName)).orElse
          (fun _ => catalog.find? (fun m => m.providers.any
            (fun p => p.modelName = modelName ∧ p.providerId = requestedProvider))) with
      | none => .error ⟨400, "Requested model " ++ modelName ++ " not supported"⟩
      | some modelDef =>
        if ¬ modelDef.providers.any (fun p => p.providerId = requestedProvider) then
          .error ⟨400, "Provider " ++ requestedProvider ++ " does not support model "
            ++ modelName⟩
        else
          match modelDef.providers.find? (fun p => p.providerId = requestedProvider) with
          | some providerMapping => .ok ⟨providerMapping.modelName, some requestedProvider, none⟩
          | none => .ok ⟨modelName, some requestedProvider, none⟩
  else if catalog.any (fun m => m.id = modelInput) then
    .ok ⟨modelInput, none, none⟩
  else if catalog.any (fun m => m.providers.any (fun p => p.modelName = modelInput)) then
    let model := catalog.find? (fun m => m.providers.any (fun p => p.modelName = modelInput))
    let provider := model.bind (fun m => m.providers.find? (fun p => p.modelName = modelInput))
    .error ⟨400, "Model " ++ modelInput ++ " must be requested with a provider prefix. "
      ++ "Use the format: " ++ ((provider.map (·.providerId)).getD "undefined") ++ "/"
      ++ ((model.map (·.id)).getD "undefined")⟩
  else
    .error ⟨400, "Requested model " ++ modelInput ++ " not supported"⟩

/-- The mock model info the handler fabricates for custom providers
(models.ts lines 1344-1361; `contextSize` and `vision` are not read by
any control flow modelled here). -/
def customMockModelInfo (requestedModel : String) : ModelDef :=
  { id := requestedModel,
    providers := [{ providerId := "custom", modelName := requestedModel,
                    inputPrice := some 0, outputPrice := some 0,
                    maxOutput := some 4096, streaming := true, reasoning := false }],
    jsonOutput := true }

/-- The model-validation context: the parsed model input and the resolved
model definition. -/
structure ModelCtx where
  pm : ParsedModel
  modelInfo : ModelDef
deriving DecidableEq, Repr

/-- The pre-auth model validation of the handler (models.ts lines
1249-1416): parse the model input, resolve the model definition, and
apply the deactivation / JSON-output / reasoning gates.  All of this runs
BEFORE the Authorization header is examined. -/
def validateModel (env : Env) : Except HErr ModelCtx := do
  let pm ← parseModelInput env.catalog env.provs env.req.model
  if (match pm.requestedProvider with
      | some rp => rp ≠ "custom" && !(env.provs.any (fun p => p.id = rp))
      | none => false) then
    throw ⟨400, "Requested provider not supported"⟩
  let modelInfo ←
    if pm.requestedProvider = some "custom" then
      pure (customMockModelInfo pm.requestedModel)
    else
      match (env.catalog.find? (fun m => m.id = pm.requestedModel)).orElse
          (fun _ => env.catalog.find? (fun m => m.providers.any
            (fun p => p.modelName = pm.requestedModel))) with
      | some mi => pure mi
      | none => throw ⟨400, "Unsupported model: " ++ pm.requestedModel⟩
  if (match modelInfo.deactivatedAt with
      | some d => decide (env.now > d)
      | none => false) then
    throw ⟨410, "Model " ++ pm.requestedModel
      ++ " has been deactivated and is no longer available"⟩
  if env.req.response_format_json ∧ ¬ modelInfo.jsonOutput then
    throw ⟨400, "Model " ++ pm.requestedModel ++ " does not support JSON output mode"⟩
  if env.req.reasoning_effort.isSome ∧ ¬ modelInfo.providers.any (fun p => p.reasoning) then
    throw ⟨400, "Model " ++ pm.requestedModel ++ " does not support reasoning. "
      ++ "Remove the reasoning_effort parameter or use a reasoning-capable model."⟩
  pure ⟨pm, modelInfo⟩

/-- The authentication stage (models.ts lines 1421-1456): missing header,
malformed header, empty token, and unknown token all yield 401.  The
api-key `status` field is never consulted. -/
def authenticate (env : Env) : Except HErr ApiKey :=
  match env.authHeader with
  | none => .error ⟨401, "Unauthorized: No Authorization header provided. "
      ++ "Expected 'Bearer your-api-token'"⟩
  | some auth =>
    let split := jsSplit auth "Bearer "
    if split.length ≠ 2 then
      .error ⟨401, "Unauthorized: Invalid Authorization header format. "
        ++ "Expected 'Bearer your-api-token'"⟩
    else
      let token := split.getD 1 ""
      if token = "" then
        .error ⟨401, "Unauthorized: No token provided"⟩
      else
        match env.apiKeyLookup token with
        | none => .error ⟨401, "Unauthorized: Invalid LLMGateway API token. "
            ++ "Please make sure the token is not deleted or disabled. "
            ++ "Go to the LLMGateway 'API Keys' page to generate a new token."⟩
        | some k => .ok k

/-- `getProviderTokenFromEnv` (models.ts lines 251-265). -/
def providerTokenFromEnv (env : Env) (usedProvider : String) : Except HErr String :=
  match env.envVarOf usedProvider with
  | none => .error ⟨400, "No environment variable set for provider: " ++ usedProvider⟩
  | some v =>
    match env.envValue v with
    | none => .error ⟨400, "No API key set in environment for provider: " ++ usedProvider⟩
    | some t =>
      if t = "" then
        .error ⟨400, "No API key set in environment for provider: " ++ usedProvider⟩
      else .ok t

/-- The per-mode credential resolution (models.ts lines 1670-1745):
`api-keys` requires a stored key; `credits` requires positive org credits
and an environment token; `hybrid` prefers a stored key and otherwise
behaves like `credits`.  Returns the stored key used (if any) and the
upstream bearer token. -/
def credentialResolve (env : Env) (project : Project) (usedProvider : String)
    (customProviderName : Option String) : Except HErr (Option ProviderKey × String) :=
  if project.mode = "api-keys" then
    let providerKey :=
      if usedProvider = "custom" ∧ customProviderName.isSome then
        env.customProviderKeyLookup project.organizationId (customProviderName.getD "")
      else env.providerKeyLookup project.organizationId usedProvider
    match providerKey with
    | none =>
      let displayName := if usedProvider = "custom" ∧ customProviderName.isSome
                         then customProviderName.getD "" else usedProvider
      .error ⟨400, "No API key set for provider: " ++ displayName ++ ". Please add a "
        ++ "provider key in your settings or add credits and switch to credits or hybrid mode."⟩
    | some k => .ok (some k, k.token)
  else if project.mode = "credits" then
    match env.orgLookup project.organizationId with
    | none => .error ⟨500, "Could not find organization"⟩
    | some org =>
      if org.credits ≤ 0 then .error ⟨402, "Organization has insufficient credits"⟩
      else do
        let t ← providerTokenFromEnv env usedProvider
        pure (none, t)
  else if project.mode = "hybrid" then
    let providerKey :=
      if usedProvider = "custom" ∧ customProviderName.isSome then
        env.customProviderKeyLookup project.organizationId (customProviderName.getD "")
      else env.providerKeyLookup project.organizationId usedProvider
    match providerKey with
    | some k => .ok (some k, k.token)
    | none =>
      match env.orgLookup project.organizationId with
      | none => .error ⟨500, "Could not find organization"⟩
      | some org =>
        if org.credits ≤ 0 then
          .error ⟨402, "No API key set for provider and organization has insufficient credits"⟩
        else do
          let t ← providerTokenFromEnv env usedProvider
          pure (none, t)
  else .error ⟨400, "Invalid project mode: " ++ project.mode⟩

/-- Modelled from the spec: `getCheapestFromAvailableProviders`
(`@llmgateway/models`, not under src/) picks the mapping with the
smallest `inputPrice + outputPrice` flat price among the available ones,
keeping declared order on ties (§4.6 rule 4). -/
def getCheapestFromAvailableProviders (avail : List ProviderMapping) (_m : ModelDef) :
    Option ProviderMapping :=
  avail.foldl (fun best p =>
    match best with
    | none => some p
    | some b =>
      if (p.inputPrice.getD 0 + p.outputPrice.getD 0)
          < (b.inputPrice.getD 0 + b.outputPrice.getD 0) then some p else best) none

/-- The routing stage (models.ts lines 1481-1625): `auto` runs the
catalog loop over the mode-dependent available providers, `custom` routes
to the `llmgateway/custom` sentinel, an explicit provider passes through,
and a bare multi-provider model picks the cheapest available mapping. -/
def routeRequest (env : Env) (project : Project) (pm : ParsedModel)
    (modelInfo : ModelDef) : Except HErr (String × String) :=
  let usedProvider := pm.requestedProvider
  let usedModel := pm.requestedModel
  if (usedProvider = some "llmgateway" ∧ usedModel = "auto") ∨ usedModel = "auto" then
    let availableProviders : List String :=
      if project.mode = "api-keys" then
        (env.activeProviderKeys project.organizationId).map (·.provider)
      else if project.mode = "credits" ∨ project.mode = "hybrid" then
        let databaseProviders := (env.activeProviderKeys project.organizationId).map (·.provider)
        let envProviders := ((env.provs.filter (fun p => p.id ≠ "llmgateway")).map (·.id)).filter
          (fun p => env.hasEnvToken p)
        if project.mode = "credits" then envProviders
        else databaseProviders ++ envProviders
      else []
    .ok (routeAuto env.catalog availableProviders env.now)
  else if (usedProvider = some "llmgateway" ∧ usedModel = "custom") ∨ usedModel = "custom" then
    .ok ("llmgateway", "custom")
  else
    match usedProvider with
    | some up => .ok (up, usedModel)
    | none =>
      if modelInfo.providers.length = 1 then
        match modelInfo.providers.head? with
        | some p => .ok (p.providerId, p.modelName)
        | none => .error ⟨500, "An error occurred while routing the request"⟩
      else
        let providerIds := modelInfo.providers.map (·.providerId)
        let providerKeys := (env.activeProviderKeys project.organizationId).filter
          (fun k => providerIds.contains k.provider)
        let availableProviders :=
          if project.mode = "api-keys" then providerKeys.map (·.provider)
          else ((env.provs.filter (fun p => p.id ≠ "llmgateway")).filter
            (fun p => env.hasEnvToken p.id)).map (·.id)
        let availableModelProviders := modelInfo.providers.filter
          (fun p => availableProviders.contains p.providerId)
        if availableModelProviders = [] then
          .error ⟨400, if project.mode = "api-keys"
            then "No provider key set for any of the providers that support model "
              ++ usedModel ++ ". Please add the provider key in the settings or switch "
              ++ "the project mode to credits or hybrid."
            else "No available provider could be found for model " ++ usedModel⟩
        else
          match env.catalog.find? (fun m => m.id = usedModel) with
          | some modelWithPricing =>
            match getCheapestFromAvailableProviders availableModelProviders modelWithPricing with
            | some c => .ok (c.providerId, c.modelName)
            | none =>
              match availableModelProviders.head? with
              | some p => .ok (p.providerId, p.modelName)
              | none => .error ⟨500, "An error occurred while routing the request"⟩
          | none =>
            match availableModelProviders.head? with
            | some p => .ok (p.providerId, p.modelName)
            | none => .error ⟨500, "An error occurred while routing the request"⟩

/-! ## Streaming event loop (models.ts lines 1906-2736) -/

/-- The providers sharing the inference.net/together.ai/groq/deepseek/
perplexity/alibaba switch branches. -/
def isGroqFamily (p : String) : Bool :=
  p = "inference.net" || p = "together.ai" || p = "groq" || p = "deepseek"
    || p = "perplexity" || p = "alibaba"

/-- The google providers (raw-JSON streaming). -/
def isGoogleProvider (p : String) : Bool :=
  p = "google-vertex" || p = "google-ai-studio"

/-- `extractContentFromProvider` (models.ts lines 439-461) for the
non-google providers. -/
def extractContentNonGoogle (provider : String) (d : StreamData) : String :=
  if provider = "anthropic" then
    if d.type? = some "content_block_delta" && strTruthy d.deltaText then d.deltaText.getD ""
    else if strTruthy d.deltaText then d.deltaText.getD ""
    else ""
  else d.choiceDeltaContent.getD ""

/-- The five token fields returned by `extractTokenUsage`
(models.ts lines 546-602). -/
structure UsageChunkFields where
  promptTokens : Option ℚ
  completionTokens : Option ℚ
  totalTokens : Option ℚ
  reasoningTokens : Option ℚ
  cachedTokens : Option ℚ
deriving DecidableEq, Repr

/-- `extractTokenUsage` (models.ts lines 546-602) for the non-google
providers; every field goes through `|| null`. -/
def extractTokenUsageNonGoogle (provider : String) (d : StreamData) : UsageChunkFields :=
  if provider = "anthropic" then
    if d.hasUsage then
      let p := jsNumOrNone d.usageInputTokens
      let c := jsNumOrNone d.usageOutputTokens
      ⟨p, c, some (p.getD 0 + c.getD 0),
       jsNumOrNone d.usageReasoningOutputTokens, jsNumOrNone d.usageCacheReadInputTokens⟩
    else ⟨none, none, none, none, none⟩
  else if isGroqFamily provider then
    if d.hasUsage then
      ⟨jsNumOrNone d.usagePromptTokens, jsNumOrNone d.usageCompletionTokens,
       jsNumOrNone d.usageTotalTokens, jsNumOrNone d.usageReasoningTokens, none⟩
    else ⟨none, none, none, none, none⟩
  else
    if d.hasUsage then
      ⟨jsNumOrNone d.usagePromptTokens, jsNumOrNone d.usageCompletionTokens,
       jsNumOrNone d.usageTotalTokens, jsNumOrNone d.usageReasoningTokens,
       jsNumOrNone d.usageCachedTokens⟩
    else ⟨none, none, none, none, none⟩

/-- The accumulator of the streaming read loop (models.ts lines
2092-2110): emitted events, accumulated content, and the token fields
(tool calls and reasoning content are accumulated in the source for the
final log row only and carry no control flow modelled by the claims). -/
structure StreamState where
  events : List SSEEvent
  fullContent : String
  finishReason : Option String
  promptTokens : Option ℚ
  completionTokens : Option ℚ
  totalTokens : Option ℚ
  reasoningTokens : Option ℚ
  cachedTokens : Option ℚ
deriving DecidableEq, Repr

/-- Initial stream-loop state. -/
def initStreamState : StreamState := ⟨[], "", none, none, none, none, none, none⟩

/-- One iteration of the non-google line loop
(models.ts lines 2297-2557). -/
def stepLine (provider : String) (msgLens : List ℕ) (st : StreamState) :
    StreamLine → StreamState
  | .otherLine => st
  | .badJson => st
  | .doneLine =>
    let finalPrompt := match st.promptTokens with
      | none => some ((streamingPromptFallback msgLens : ℤ) : ℚ)
      | some p => some p
    let finalCompletion := match st.completionTokens with
      | none => some ((estimateTokensFromContent st.fullContent.length : ℤ) : ℚ)
      | some c => some c
    let finalTotal := match st.totalTokens with
      | none => some (finalPrompt.getD 0 + finalCompletion.getD 0)
      | some t => some t
    let evs := if finalPrompt.isSome || finalCompletion.isSome || finalTotal.isSome
               then [SSEEvent.usageChunk, SSEEvent.doneEvent] else [SSEEvent.doneEvent]
    { st with events := st.events ++ evs }
  | .dataLine d =>
    let st1 := { st with events := st.events ++ [SSEEvent.dataChunk] }
    let contentChunk := extractContentNonGoogle provider d
    let st2 := if contentChunk ≠ ""
               then { st1 with fullContent := st1.fullContent ++ contentChunk } else st1
    let fr : Option String :=
      if provider = "anthropic" then
        if d.type? = some "message_delta" && strTruthy d.deltaStopReason then d.deltaStopReason
        else if d.type? = some "message_stop" || strTruthy d.stopReason then
          some (match d.stopReason with
                | some s => if s = "" then "end_turn" else s
                | none => "end_turn")
        else if strTruthy d.deltaStopReason then d.deltaStopReason
        else st2.finishReason
      else
        if strTruthy d.choiceFinishReason then d.choiceFinishReason else st2.finishReason
    let u := extractTokenUsageNonGoogle provider d
    let st3 := { st2 with
      finishReason := fr,
      promptTokens := match u.promptTokens with | some x => some x | none => st2.promptTokens,
      completionTokens :=
        match u.completionTokens with | some x => some x | none => st2.completionTokens,
      totalTokens := match u.totalTokens with | some x => some x | none => st2.totalTokens,
      reasoningTokens :=
        match u.reasoningTokens with | some x => some x | none => st2.reasoningTokens,
      cachedTokens := match u.cachedTokens with | some x => some x | none => st2.cachedTokens }
    if strTruthy st3.finishReason
        && (numFalsy st3.promptTokens || numFalsy st3.completionTokens) then
      let p := if numFalsy st3.promptTokens
               then some ((streamingPromptFallback msgLens : ℤ) : ℚ) else st3.promptTokens
      let c := if numFalsy st3.completionTokens
               then some ((estimateTokensFromContent st3.fullContent.length : ℤ) : ℚ)
               else st3.completionTokens
      { st3 with promptTokens := p, completionTokens := c,
                 totalTokens := some (p.getD 0 + c.getD 0) }
    else st3

/-- One iteration of the google raw-JSON loop
(models.ts lines 2154-2277). -/
def stepGoogle (provider : String) (st : StreamState) (g : GoogleData) : StreamState :=
  let st1 := { st with events := st.events ++ [SSEEvent.dataChunk] }
  let contentChunk := g.text.getD ""
  let st2 := if contentChunk ≠ ""
             then { st1 with fullContent := st1.fullContent ++ contentChunk } else st1
  let st3 :=
    if strTruthy g.finishReason then
      { st2 with finishReason := g.finishReason,
                 events := st2.events ++ [SSEEvent.doneEvent] }
    else st2
  let u : UsageChunkFields :=
    if g.hasUsageMetadata then
      ⟨jsNumOrNone g.promptTokenCount, jsNumOrNone g.candidatesTokenCount,
       jsNumOrNone g.totalTokenCount, none, none⟩
    else ⟨none, none, none, none, none⟩
  let st4 := { st3 with
    promptTokens := match u.promptTokens with | some x => some x | none => st3.promptTokens,
    completionTokens :=
      match u.completionTokens with | some x => some x | none => st3.completionTokens,
    totalTokens := match u.totalTokens with | some x => some x | none => st3.totalTokens }
  if isGoogleProvider provider && numFalsy u.completionTokens && st4.fullContent ≠ "" then
    { st4 with completionTokens := none }
  else st4

/-- Runs the read loop over the whole body
(models.ts lines 2112-2559); the second component reports whether
`reader.read()` ended with an `AbortError` (client cancel). -/
def runStreamBody (provider : String) (msgLens : List ℕ) :
    StreamBody → StreamState × Bool
  | .sse lines aborted => (lines.foldl (stepLine provider msgLens) initStreamState, aborted)
  | .googleRaw objs aborted => (objs.foldl (stepGoogle provider) initStreamState, aborted)

/-- The output of the streaming `finally` block. -/
structure StreamFinalOut where
  events : List SSEEvent
  row : LogRow
deriving DecidableEq, Repr

/-- The streaming `finally` block (models.ts lines 2566-2735): estimate
missing tokens, emit the synthetic usage chunk plus `done: [DONE]` when
`needsUsageChunk` holds, and build the one streaming log row. -/
def streamFinally (base : BaseLogEntry) (msgLens : List ℕ)
    (encodeChatLen : Option ℕ) (encodeLen : String → Option ℕ)
    (costs : Costs) (elapsedMs : ℕ) (st : StreamState) (canceled : Bool) :
    StreamFinalOut :=
  let cpcc : Option ℚ × Option ℚ × Option ℚ :=
    if numFalsy st.promptTokens || numFalsy st.completionTokens then
      let cp := if numFalsy st.promptTokens && !msgLens.isEmpty then
                  some (match encodeChatLen with
                        | some n => (n : ℚ)
                        | none => unaryPromptFallback msgLens)
                else st.promptTokens
      let cc := if numFalsy st.completionTokens && st.fullContent ≠ "" then
                  some (match encodeLen st.fullContent with
                        | some n => (n : ℚ)
                        | none => ((estimateTokensFromContent st.fullContent.length : ℤ) : ℚ))
                else st.completionTokens
      (cp, cc, some (cp.getD 0 + cc.getD 0))
    else (st.promptTokens, st.completionTokens, st.totalTokens)
  let cp := cpcc.1
  let cc := cpcc.2.1
  let ct := cpcc.2.2
  let needsUsageChunk :=
    (st.promptTokens.isNone && st.completionTokens.isNone && st.totalTokens.isNone
      && (cp.isSome || cc.isSome))
    || (st.completionTokens.isNone && cc.isSome)
  let events := if needsUsageChunk
                then st.events ++ [SSEEvent.usageChunk, SSEEvent.doneEvent] else st.events
  { events,
    row := { base, duration := elapsedMs, responseSize := st.fullContent.length,
             finishReason := st.finishReason,
             promptTokens := cp, completionTokens := cc, totalTokens := ct,
             hasError := false, streamed := true, canceled := canceled, cached := false,
             inputCost := costs.inputCost, outputCost := costs.outputCost,
             cachedInputCost := costs.cachedInputCost, requestCost := costs.requestCost,
             cost := costs.totalCost, estimatedCost := some costs.estimatedCost } }

/-- Events, log rows and thrown-exception flag of a whole streaming
dispatch. -/
structure StreamResult where
  events : List SSEEvent
  logs : List LogRow
  threw : Bool
deriving DecidableEq, Repr

/-- The streaming dispatch (models.ts lines 1906-2736): the canceled-fetch
path emits `canceled` then `done` and logs once; a non-2xx response emits
`error` then `done` and logs once; a missing body emits `error` then
`done` and logs nothing; a transport error is rethrown before any event;
otherwise the read loop runs and the `finally` block logs exactly once. -/
def streamDispatch (env : Env) (base : BaseLogEntry) (provider : String) :
    StreamResult :=
  let msgLens := env.req.messages.map (fun m => (m.content.getD "").length)
  match env.streamFetch with
  | .abortError =>
    { events := [SSEEvent.canceledEvent, SSEEvent.doneEvent],
      logs := [{ base, duration := env.elapsedMs, responseSize := 0,
                 finishReason := some "canceled", promptTokens := none,
                 completionTokens := none, totalTokens := none,
                 hasError := false, streamed := true, canceled := true, cached := false,
                 inputCost := none, outputCost := none, cachedInputCost := none,
                 requestCost := none, cost := none, estimatedCost := none }],
      threw := false }
  | .transportError => { events := [], logs := [], threw := true }
  | .httpError s tl =>
    { events := [SSEEvent.errorEvent, SSEEvent.doneEvent],
      logs := [{ base, duration := env.elapsedMs, responseSize := tl,
                 finishReason := some (getFinishReasonForError s), promptTokens := none,
                 completionTokens := none, totalTokens := none,
                 hasError := true, streamed := true, canceled := false, cached := false,
                 inputCost := none, outputCost := none, cachedInputCost := none,
                 requestCost := none, cost := none, estimatedCost := none }],
      threw := false }
  | .okNoBody => { events := [SSEEvent.errorEvent, SSEEvent.doneEvent], logs := [],
                   threw := false }
  | .ok body =>
    let stab := runStreamBody provider msgLens body
    let fin := streamFinally base msgLens env.encodeChatLen env.encodeLen env.costs
      env.elapsedMs stab.1 stab.2
    { events := fin.events, logs := [fin.row], threw := false }

/-! ## Assembled handler -/

/-- Everything the handler has resolved once routing, credentials and the
endpoint are settled (models.ts lines 1222-1782). -/
structure RouteCtx where
  pm : ParsedModel
  modelInfo : ModelDef
  apiKey : ApiKey
  project : Project
  usedProvider : String
  usedModel : String
  baseModelName : String
  finalModelInfo : Option ModelDef
  providerKey : Option ProviderKey
  usedToken : String
  url : String
  requestCanBeCanceled : Bool
deriving DecidableEq, Repr

/-- The handler pipeline up to and including endpoint resolution
(models.ts lines 1222-1782): model validation (BEFORE auth), auth,
project and custom-provider lookups, routing, credential resolution and
the endpoint.  Every failure is the `HTTPException` the source throws. -/
def preRoute (env : Env) : Except HErr RouteCtx := do
  let mc ← validateModel env
  let apiKey ← authenticate env
  let project ← match env.projectLookup apiKey.projectId with
    | none => throw ⟨500, "Could not find project"⟩
    | some p => pure p
  match mc.pm.requestedProvider, mc.pm.customProviderName with
  | some "custom", some n =>
    if ¬ env.customProviderExists project.organizationId n then
      throw ⟨400, "Provider '" ++ n ++ "' not found."⟩
  | _, _ => pure ()
  let route ← routeRequest env project mc.pm mc.modelInfo
  let usedProvider := route.1
  let usedModel := route.2
  if usedProvider = "" then
    throw ⟨500, "An error occurred while routing the request"⟩
  let finalModelInfo : Option ModelDef :=
    if usedProvider = "custom" then
      some { id := usedModel,
             providers := [{ providerId := "custom", modelName := usedModel,
                             inputPrice := some 0, outputPrice := some 0,
                             maxOutput := some 4096, streaming := true,
                             reasoning := false }] }
    else
      env.catalog.find? (fun m =>
        m.id = usedModel ∨ m.providers.any (fun p => p.modelName = usedModel))
  let baseModelName :=
    if usedProvider = "custom" then usedModel
    else match finalModelInfo with
      | some m => if m.id = "" then usedModel else m.id
      | none => usedModel
  if project.mode = "credits" ∧ usedProvider = "custom" then
    throw ⟨400, "Custom providers are not supported in credits mode. "
      ++ "Please change your project settings to API keys or hybrid mode."⟩
  let cred ← credentialResolve env project usedProvider mc.pm.customProviderName
  let providerKey := cred.1
  let usedToken := cred.2
  if usedToken = "" then
    throw ⟨500, "No token"⟩
  let url ← match env.endpointOf usedProvider usedModel with
    | .ok u =>
      if u = "" then
        throw (⟨400, "No base URL set for provider: " ++ usedProvider
          ++ ". Please add a base URL in your settings."⟩ : HErr)
      else pure u
    | .noUrl => throw ⟨400, "No base URL set for provider: " ++ usedProvider
        ++ ". Please add a base URL in your settings."⟩
    | .thrown =>
      if usedProvider = "llmgateway" ∧ usedModel ≠ "custom" then
        throw ⟨400, "Invalid model: " ++ usedModel ++ " for provider: " ++ usedProvider⟩
      else throw ⟨500, "Could not use provider: " ++ usedProvider⟩
  let requestCanBeCanceled :=
    (env.provs.find? (fun p => p.id = usedProvider)).map (·.cancellation) = some true
  pure ⟨mc.pm, mc.modelInfo, apiKey, project, usedProvider, usedModel, baseModelName,
        finalModelInfo, providerKey, usedToken, url, requestCanBeCanceled⟩

/-- The cache key of the request (models.ts lines 1791-1800);
`generateCacheKey` idealized as the input tuple. -/
def cacheKeyOf (env : Env) (ctx : RouteCtx) : CacheKey :=
  { model := ctx.usedModel, messages := env.req.messages,
    temperature := env.req.temperature, max_tokens := env.req.max_tokens,
    top_p := env.req.top_p, frequency_penalty := env.req.frequency_penalty,
    presence_penalty := env.req.presence_penalty,
    response_format_json := env.req.response_format_json }

/-- Modelled from the spec: `getModelStreamingSupport`
(`@llmgateway/models`, not under src/) returns the `streaming` capability
flag of the (model, provider) catalog mapping, `null` when the pair is
not in the catalog (§4.6 gate on `stream=true`; the handler only rejects
on an explicit `false`). -/
def getModelStreamingSupport (catalog : List ModelDef) (baseModelName provider : String) :
    Option Bool :=
  match catalog.find? (fun m => m.id = baseModelName) with
  | none => none
  | some m =>
    match m.providers.find? (fun p => p.providerId = provider) with
    | none => none
    | some p => some p.streaming

/-- The client-visible outcome of the handler. -/
inductive HandlerOutcome
  | errorThrown (e : HErr)
  | thrownException
  | cachedJson (r : CachedResponse)
  | canceledJson
  | providerErrorJson (status : ℕ)
  | okJson
  | sse (events : List SSEEvent)
deriving DecidableEq, Repr

/-- The full observable behaviour of one request: outcome, inserted log
rows, whether an upstream fetch was dispatched, and any cache write. -/
structure HandlerOut where
  outcome : HandlerOutcome
  logs : List LogRow
  dispatched : Bool
  cacheWrite : Option CacheKey
deriving DecidableEq, Repr

/-- `estimateTokens` (models.ts lines 378-427): fill missing token counts
from the tokenizer, falling back to unrounded division by 4. -/
def estimateTokens (messages : List ReqMsg) (content : Option String)
    (promptTokens completionTokens : Option ℚ)
    (encodeChatLen : Option ℕ) (encodeLen : String → Option ℕ) :
    Option ℚ × Option ℚ :=
  if numFalsy promptTokens || numFalsy completionTokens then
    let p := if numFalsy promptTokens && !messages.isEmpty then
               match encodeChatLen with
               | some n => some (n : ℚ)
               | none => some (unaryPromptFallback
                   (messages.map (fun m => (m.content.getD "").length)))
             else promptTokens
    let c := if numFalsy completionTokens && strTruthy content then
               match encodeLen (content.getD "") with
               | some n => some (n : ℚ)
               | none => some (unaryCompletionFallback (content.getD "").length)
             else completionTokens
    (p, c)
  else (promptTokens, completionTokens)

/-- The handler after routing (models.ts lines 1784-3016): cache lookup
and synthetic cached log, max_tokens and streaming-support gates, then
the streaming or unary dispatch with its per-outcome log row. -/
def afterRoute (env : Env) (ctx : RouteCtx) : HandlerOut :=
  let base := createLogEntry env.requestId ctx.project ctx.apiKey
    (ctx.providerKey.map (·.id)) ctx.usedModel ctx.usedProvider
    ctx.pm.requestedModel ctx.pm.requestedProvider
  let cacheKey : Option CacheKey :=
    if env.cachingEnabled && !env.req.stream then some (cacheKeyOf env ctx) else none
  match cacheKey.bind env.cacheGet with
  | some cr =>
    { outcome := .cachedJson cr,
      logs := [{ base, duration := 0, responseSize := cr.size,
                 finishReason := (match cr.finishReason with
                   | some s => if s = "" then none else some s
                   | none => none),
                 promptTokens := jsNumOrNone cr.promptTokens,
                 completionTokens := jsNumOrNone cr.completionTokens,
                 totalTokens := jsNumOrNone cr.totalTokens,
                 hasError := false, streamed := false, canceled := false, cached := true,
                 inputCost := some 0, outputCost := some 0, cachedInputCost := some 0,
                 requestCost := some 0, cost := some 0, estimatedCost := some false }],
      dispatched := false, cacheWrite := none }
  | none =>
    let maxTokensViolation : Option (ℕ × ℕ) :=
      match env.req.max_tokens, ctx.finalModelInfo with
      | some mt, some fmi =>
        match fmi.providers.find? (fun p =>
            p.providerId = ctx.usedProvider ∧ p.modelName = ctx.usedModel) with
        | some pmap =>
          match pmap.maxOutput with
          | some mo => if mt > mo then some (mt, mo) else none
          | none => none
        | none => none
      | _, _ => none
    match maxTokensViolation with
    | some mtmo =>
      { outcome := .errorThrown ⟨400, "The requested max_tokens (" ++ toString mtmo.1
          ++ ") exceeds the maximum output tokens allowed for model " ++ ctx.usedModel
          ++ " (" ++ toString mtmo.2 ++ ")"⟩,
        logs := [], dispatched := false, cacheWrite := none }
    | none =>
      if env.req.stream
          && (getModelStreamingSupport env.catalog ctx.baseModelName ctx.usedProvider
              == some false) then
        { outcome := .errorThrown ⟨400, "Model " ++ ctx.usedModel ++ " with provider "
            ++ ctx.usedProvider ++ " does not support streaming"⟩,
          logs := [], dispatched := false, cacheWrite := none }
      else if env.req.stream then
        let r := streamDispatch env base ctx.usedProvider
        { outcome := if r.threw then .thrownException else .sse r.events,
          logs := r.logs, dispatched := true, cacheWrite := none }
      else
        match env.unaryFetch with
        | .abortError =>
          { outcome := .canceledJson,
            logs := [{ base, duration := env.elapsedMs, responseSize := 0,
                       finishReason := some "canceled", promptTokens := none,
                       completionTokens := none, totalTokens := none,
                       hasError := false, streamed := false, canceled := true,
                       cached := false, inputCost := none, outputCost := none,
                       cachedInputCost := none, requestCost := none, cost := none,
                       estimatedCost := some false }],
            dispatched := true, cacheWrite := none }
        | .transportError =>
          { outcome := .thrownException, logs := [], dispatched := true, cacheWrite := none }
        | .httpError s tl =>
          { outcome := .providerErrorJson 500,
            logs := [{ base, duration := env.elapsedMs, responseSize := tl,
                       finishReason := some (getFinishReasonForError s),
                       promptTokens := none, completionTokens := none, totalTokens := none,
                       hasError := true, streamed := false, canceled := false,
                       cached := false, inputCost := none, outputCost := none,
                       cachedInputCost := none, requestCost := none, cost := none,
                       estimatedCost := some false }],
            dispatched := true, cacheWrite := none }
        | .ok parsed size =>
          let est := estimateTokens env.req.messages parsed.content
            parsed.promptTokens parsed.completionTokens env.encodeChatLen env.encodeLen
          { outcome := .okJson,
            logs := [{ base, duration := env.elapsedMs, responseSize := size,
                       finishReason := parsed.finishReason,
                       promptTokens := est.1, completionTokens := est.2,
                       totalTokens :=
                         if numFalsy parsed.totalTokens
                         then some (est.1.getD 0 + est.2.getD 0)
                         else parsed.totalTokens,
                       hasError := false, streamed := false, canceled := false,
                       cached := false, inputCost := env.costs.inputCost,
                       outputCost := env.costs.outputCost,
                       cachedInputCost := env.costs.cachedInputCost,
                       requestCost := env.costs.requestCost, cost := env.costs.totalCost,
                       estimatedCost := some env.costs.estimatedCost }],
            dispatched := true,
            cacheWrite := if env.cachingEnabled && cacheKey.isSome && !env.req.stream
                          then cacheKey else none }

/-- The whole handler (models.ts lines 1222-3016): a thrown
`HTTPException` before dispatch produces no log row; otherwise the
post-route stage runs. -/
def handle (env : Env) : HandlerOut :=
  match preRoute env with
  | .error e => { outcome := .errorThrown e, logs := [], dispatched := false,
                  cacheWrite := none }
  | .ok ctx => afterRoute env ctx

/-! ## Concrete demonstration environments used by witnesses and
counterexamples -/

/-- The demo catalog model. -/
def demoModel : ModelDef :=
  { id := "gpt-4o",
    providers := [{ providerId := "openai", modelName := "gpt-4o",
                    inputPrice := some 1, outputPrice := some 2,
                    maxOutput := some 1000 }] }

/-- A one-model demo catalog. -/
def demoCatalog : List ModelDef := [demoModel]

/-- A demo provider table. -/
def demoProvs : List ProviderInfo := [⟨"openai", true⟩, ⟨"anthropic", true⟩]

/-- A demo non-streaming request for the catalog model. -/
def demoReq : Request :=
  { model := "gpt-4o", messages := [⟨"user", some "hi", none⟩],
    temperature := none, max_tokens := none, top_p := none,
    frequency_penalty := none, presence_penalty := none,
    response_format_json := false, stream := false, reasoning_effort := none }

/-- A demo parsed upstream response with full usage. -/
def demoParsed : ParsedResponse :=
  { content := some "hello", reasoningContent := none, finishReason := some "stop",
    promptTokens := some 10, completionTokens := some 5, totalTokens := some 15,
    reasoningTokens := none, cachedTokens := none }

/-- Demo cost-calculator output. -/
def demoCosts : Costs := ⟨some 1, some 1, none, none, some 2, false⟩

/-- A demo environment for a credits-mode project whose request reaches
the upstream dispatch and succeeds. -/
def demoEnv : Env :=
  { catalog := demoCatalog, provs := demoProvs, req := demoReq,
    authHeader := some "Bearer tok123", requestId := "req1",
    apiKeyLookup := fun t => if t = "tok123" then some ⟨"ak1", "proj1", "active"⟩ else none,
    projectLookup := fun pid =>
      if pid = "proj1" then some ⟨"proj1", "org1", "credits"⟩ else none,
    orgLookup := fun o => if o = "org1" then some ⟨100⟩ else none,
    customProviderExists := fun _ _ => false,
    providerKeyLookup := fun _ _ => none,
    customProviderKeyLookup := fun _ _ => none,
    activeProviderKeys := fun _ => [],
    hasEnvToken := fun p => p = "openai",
    envVarOf := fun p => if p = "openai" then some "OPENAI_API_KEY" else none,
    envValue := fun v => if v = "OPENAI_API_KEY" then some "sk-demo" else none,
    endpointOf := fun _ _ => .ok "https://api.openai.com/v1/chat/completions",
    cachingEnabled := false, cacheDuration := 60, cacheGet := fun _ => none,
    now := 0, elapsedMs := 5,
    unaryFetch := .ok demoParsed 100,
    streamFetch := .okNoBody,
    costs := demoCosts,
    encodeChatLen := some 3, encodeLen := fun _ => some 4 }

/-- The route context `preRoute demoEnv` resolves to: credits mode, env
credential, no stored provider key. -/
def demoCtx : RouteCtx :=
  { pm := ⟨"gpt-4o", none, none⟩,
    modelInfo := demoModel,
    apiKey := ⟨"ak1", "proj1", "active"⟩,
    project := ⟨"proj1", "org1", "credits"⟩,
    usedProvider := "openai", usedModel := "gpt-4o", baseModelName := "gpt-4o",
    finalModelInfo := some demoModel,
    providerKey := none, usedToken := "sk-demo",
    url := "https://api.openai.com/v1/chat/completions",
    requestCanBeCanceled := true }

/-- Environment with an unknown model and no Authorization header. -/
def envNoAuthUnknownModel : Env :=
  { demoEnv with req := { demoReq with model := "mythical-1" }, authHeader := none }

/-- Environment with an unknown model and a valid Authorization header. -/
def envAuthedUnknownModel : Env :=
  { demoEnv with req := { demoReq with model := "mythical-1" } }

/-- A cached response used by the cache-hit witness. -/
def demoCached : CachedResponse :=
  ⟨some "hi", none, some "stop", some 10, some 5, some 15, none, 42⟩

/-- `demoEnv` with caching enabled and the cache populated. -/
def envCacheHit : Env :=
  { demoEnv with cachingEnabled := true, cacheGet := fun _ => some demoCached }

/-- A catalog entry for an anthropic-only model. -/
def anthropicModel : ModelDef :=
  { id := "claude-3",
    providers := [{ providerId := "anthropic", modelName := "claude-3-prov",
                    inputPrice := some 1, outputPrice := some 2,
                    maxOutput := some 1000 }] }

/-- An anthropic SSE stream that reports full usage and terminates with
`message_stop` — with no `data: [DONE]` line (anthropic never sends one). -/
def linesAnthropicFullUsage : List StreamLine :=
  [ .dataLine { emptyStreamData with
      type? := some "message_start", hasUsage := true, usageInputTokens := some 10 },
    .dataLine { emptyStreamData with
      type? := some "content_block_delta", deltaText := some "hi" },
    .dataLine { emptyStreamData with
      type? := some "message_delta", deltaStopReason := some "end_turn",
      hasUsage := true, usageOutputTokens := some 5 },
    .dataLine { emptyStreamData with type? := some "message_stop" } ]

/-- A streaming request to `anthropic/claude-3` whose upstream stream is
`linesAnthropicFullUsage`. -/
def envStreamNoDone : Env :=
  { demoEnv with
    catalog := demoCatalog ++ [anthropicModel],
    req := { demoReq with model := "anthropic/claude-3", stream := true },
    envVarOf := fun p =>
      if p = "openai" then some "OPENAI_API_KEY"
      else if p = "anthropic" then some "ANTHROPIC_API_KEY" else none,
    envValue := fun v =>
      if v = "OPENAI_API_KEY" then some "sk-demo"
      else if v = "ANTHROPIC_API_KEY" then some "sk-a" else none,
    streamFetch := .ok (.sse linesAnthropicFullUsage false) }

/-- `envStreamNoDone` with an upstream 502 instead of a body. -/
def envStreamHttpError : Env :=
  { envStreamNoDone with streamFetch := .httpError 502 7 }

/-! # Theorems -/

/-! ## C9: log-queue persistence-failure recovery -/

/-- C9: if persisting a claimed batch fails and the recovery move
succeeds, the entire batch is back on the main queue (nothing persisted,
processing queue empty); if the recovery itself fails, the batch stays in
the processing queue and the next worker startup moves it back to the
main queue.  Either way a claimed parseable message is never discarded. -/
theorem logQueue_no_message_lost (retN : String → Bool) (pm : String → Option String)
    (st : WorkerState) (hmain : st.main ≠ [])
    (hvalid : (st.main.take 10).filterMap (fun m =>
        match m with | .valid d => some d | .invalid => none) ≠ []) :
    ((processLogQueue retN pm true false st).main
        = st.main.drop 10 ++ (st.processing ++ st.main.take 10)
      ∧ (processLogQueue retN pm true false st).processing = []
      ∧ (processLogQueue retN pm true false st).persisted = st.persisted
      ∧ ∀ m ∈ st.main.take 10, m ∈ (processLogQueue retN pm true false st).main)
    ∧ ((processLogQueue retN pm true true st).processing
        = st.processing ++ st.main.take 10
      ∧ (processLogQueue retN pm true true st).main = st.main.drop 10
      ∧ (processLogQueue retN pm true true st).persisted = st.persisted
      ∧ ∀ m ∈ st.main.take 10,
          m ∈ (startupRecover (processLogQueue retN pm true true st)).main) := by
  have h1 : processLogQueue retN pm true false st =
      recoverProcessingQueue
        { st with main := st.main.drop 10, processing := st.processing ++ st.main.take 10 } := by
    unfold processLogQueue moveToProcessingQueue
    rw [if_neg hmain]
    simp [hvalid]
  have h2 : processLogQueue retN pm true true st =
      { st with main := st.main.drop 10, processing := st.processing ++ st.main.take 10 } := by
    unfold processLogQueue moveToProcessingQueue
    rw [if_neg hmain]
    simp [hvalid]
  refine ⟨⟨?_, ?_, ?_, ?_⟩, ?_, ?_, ?_, ?_⟩
  · rw [h1]; rfl
  · rw [h1]; rfl
  · rw [h1]; rfl
  · intro m hm
    rw [h1]
    simp only [recoverProcessingQueue, List.mem_append]
    exact Or.inr (Or.inr hm)
  · rw [h2]
  · rw [h2]
  · rw [h2]
  · intro m hm
    rw [h2]
    simp only [startupRecover, recoverProcessingQueue, List.mem_append]
    exact Or.inr (Or.inr hm)

/-- C9 witness: a one-message queue with a failing persist run. -/
theorem logQueue_no_message_lost_witness :
    ((processLogQueue (fun _ => false) (fun _ => none) true false
        ⟨[QMsg.valid ⟨"org1", "proj1", some 1, false, some "body"⟩], [], [],
          fun _ => 0⟩).main
      = [QMsg.valid ⟨"org1", "proj1", some 1, false, some "body"⟩].drop 10
          ++ ([] ++ [QMsg.valid ⟨"org1", "proj1", some 1, false, some "body"⟩].take 10))
    ∧ (processLogQueue (fun _ => false) (fun _ => none) true false
        ⟨[QMsg.valid ⟨"org1", "proj1", some 1, false, some "body"⟩], [], [],
          fun _ => 0⟩).processing = [] :=
  ⟨(logQueue_no_message_lost _ _ _ (by simp) (by simp)).1.1,
   (logQueue_no_message_lost _ _ _ (by simp) (by simp)).1.2.1⟩

/-! ## C2: the `auto` router with no available provider -/

/-- C2 counterexample: with a one-model catalog whose only mapping targets
`anthropic` and an empty set of available providers, the `auto` router
returns the route `(openai, gpt-4o-mini)` instead of failing with a
`NoAvailableProvider` error. -/
theorem routeAuto_no_error_counterexample :
    routeAuto
      [{ id := "claude-3-opus",
         providers := [{ providerId := "anthropic", modelName := "claude-3-opus" }] }]
      [] 0 = ("openai", "gpt-4o-mini") := by
  rfl

/-- C2 amended: when the requested model is `auto` and no non-deprecated
catalog model other than the `auto`/`custom` sentinel entries has a
mapping to an available provider, the router does not fail; it returns
the fallback route `(openai, gpt-4o-mini)`. -/
theorem routeAuto_falls_back (catalog : List ModelDef) (available : List String) (now : ℤ)
    (h : ∀ m ∈ catalog, ¬(m.id = "auto" ∨ m.id = "custom") →
      isDeprecated m now = false →
      ∀ p ∈ m.providers, available.contains p.providerId = false) :
    routeAuto catalog available now = ("openai", "gpt-4o-mini") := by
  have hnil : autoPick catalog available now = none := by
    unfold autoPick
    rw [List.head?_eq_none_iff, List.filterMap_eq_nil_iff]
    intro m hm
    split
    · rfl
    · split
      · rfl
      · rename_i hsent hdep
        have hfil : m.providers.filter (fun p => available.contains p.providerId) = [] := by
          rw [List.filter_eq_nil_iff]
          intro p hp
          simpa using h m hm hsent (by simpa using hdep) p hp
        rw [List.head?_eq_none_iff]
        exact hfil
  unfold routeAuto
  rw [hnil]

/-- C2 witness: instantiates the fallback theorem on a concrete catalog
whose only model is deprecated even though its provider is available. -/
theorem routeAuto_falls_back_witness :
    routeAuto
      [{ id := "gpt-4o",
         providers := [{ providerId := "openai", modelName := "gpt-4o" }],
         deprecatedAt := some 5 }]
      ["openai"] 12 = ("openai", "gpt-4o-mini") :=
  routeAuto_falls_back _ _ 12 (by decide)

/-! ## C3: finish-reason normalization -/

/-- C3 counterexample: in the unary anthropic normalization path,
`tool_use` is normalized to `"tool_use"` (not `"tool_calls"`), and in the
google paths `MAX_TOKENS` is normalized to `"max_tokens"` (not
`"length"`), so the claimed mapping table is wrong for the unary path. -/
theorem finishReason_counterexample :
    anthropicUnaryFinishReason (some "tool_use") = "tool_use"
    ∧ googleUnaryFinishReason (some "MAX_TOKENS") = "max_tokens"
    ∧ "tool_use" ≠ "tool_calls" ∧ "max_tokens" ≠ "length" := by
  refine ⟨by decide, by decide, by decide, by decide⟩

/-- C3 amended: the normalization is per-path.  Anthropic streaming maps
`end_turn → stop`, `tool_use → tool_calls`, otherwise lowercase-or-stop;
anthropic unary maps only `end_turn → stop` and lowercases everything else
(so `tool_use → tool_use`); both google paths map only `STOP → stop` and
lowercase everything else (so `MAX_TOKENS → max_tokens`, not `length`);
the inference.net/together.ai/groq unary fill-in passes the upstream value
through unchanged (no lowercasing) with `stop` for empty; and empty or
absent values map to `stop` in all of these paths. -/
theorem finishReason_normalization_amended :
    (googleUnaryFinishReason (some "STOP") = "stop"
      ∧ googleStreamFinishReason (some "STOP") = "stop"
      ∧ anthropicUnaryFinishReason (some "end_turn") = "stop"
      ∧ anthropicStreamFinishReason (some "end_turn") = "stop"
      ∧ anthropicUnaryFinishReason (some "stop") = "stop"
      ∧ groqFamilyUnaryFinishReason (some "stop") = "stop")
    ∧ (anthropicStreamFinishReason (some "tool_use") = "tool_calls"
      ∧ anthropicUnaryFinishReason (some "tool_use") = "tool_use")
    ∧ (googleUnaryFinishReason (some "MAX_TOKENS") = "max_tokens"
      ∧ googleStreamFinishReason (some "MAX_TOKENS") = "max_tokens"
      ∧ anthropicUnaryFinishReason (some "length") = "length")
    ∧ (∀ s : String, s ≠ "STOP" →
        googleUnaryFinishReason (some s) = jsLowerOrStop (some s)
        ∧ googleStreamFinishReason (some s) = jsLowerOrStop (some s))
    ∧ (∀ s : String, s ≠ "end_turn" → s ≠ "tool_use" →
        anthropicStreamFinishReason (some s) = jsLowerOrStop (some s))
    ∧ (∀ s : String, s ≠ "end_turn" →
        anthropicUnaryFinishReason (some s) = jsLowerOrStop (some s))
    ∧ (∀ s : String, s ≠ "" → groqFamilyUnaryFinishReason (some s) = s)
    ∧ (googleUnaryFinishReason none = "stop" ∧ anthropicUnaryFinishReason none = "stop"
      ∧ anthropicStreamFinishReason none = "stop" ∧ groqFamilyUnaryFinishReason none = "stop"
      ∧ googleUnaryFinishReason (some "") = "stop"
      ∧ anthropicStreamFinishReason (some "") = "stop") := by
  refine ⟨⟨by decide, by decide, by decide, by decide, by decide, by decide⟩,
    ⟨by decide, by decide⟩, ⟨by decide, by decide, by decide⟩, ?_, ?_, ?_, ?_,
    ⟨by decide, by decide, by decide, by decide, by decide, by decide⟩⟩
  · intro s hs
    constructor
    · simp [googleUnaryFinishReason, hs]
    · simp [googleStreamFinishReason, hs]
  · intro s h1 h2
    simp [anthropicStreamFinishReason, h1, h2]
  · intro s h1
    simp [anthropicUnaryFinishReason, h1]
  · intro s hs
    simp [groqFamilyUnaryFinishReason, hs]

/-- C3 amended witness: instantiates the universally quantified lowercase
clause at `MAX_TOKENS`. -/
theorem finishReason_normalization_amended_witness :
    anthropicStreamFinishReason (some "MAX_TOKENS") = jsLowerOrStop (some "MAX_TOKENS") :=
  finishReason_normalization_amended.2.2.2.2.1 "MAX_TOKENS" (by decide) (by decide)

/-! ## C5: auto-topup idempotency window -/

/-- C5 counterexample: an organization whose most recent `credit_topup`
transaction `succeeded` 30 minutes ago is *not* skipped — the pass inserts
a fresh `pending` transaction, so a `succeeded` and a `pending` auto-topup
transaction for the same org coexist inside a 1-hour window, violating the
claimed invariant (the skip only fires on `pending` or `failed`). -/
theorem autoTopUp_succeeded_counterexample :
    skipByRecentTxn (some { createdAt := 5400000, status := .succeeded }) 7200000 = false
    ∧ processOrgTopUp { credits := 5, autoTopUpThreshold := none, autoTopUpAmount := none }
        (some { createdAt := 5400000, status := .succeeded }) true .requiresAction 7200000
      = some { createdAt := 7200000, status := .pending }
    ∧ (7200000 : ℤ) - 5400000 < 60 * 60 * 1000 := by
  refine ⟨rfl, ?_, by decide⟩
  decide

/-- C5 amended: the auto-topup pass skips an organization exactly when its
most recent `credit_topup` transaction is less than one hour old and in a
`pending` or `failed` state (a recent `succeeded` transaction does not
suppress a new top-up); whenever the skip condition holds, the pass
inserts no transaction for that organization. -/
theorem autoTopUp_skip_amended :
    (∀ (recent : Option Txn) (now : ℤ),
      skipByRecentTxn recent now = true ↔
        ∃ t, recent = some t ∧ now - 60 * 60 * 1000 < t.createdAt ∧
          (t.status = TxnStatus.pending ∨ t.status = TxnStatus.failed))
    ∧ (∀ (org : Org) (recent : Option Txn) (hasPM : Bool) (so : StripeOutcome) (now : ℤ),
        skipByRecentTxn recent now = true →
        processOrgTopUp org recent hasPM so now = none) := by
  constructor
  · intro recent now
    cases recent with
    | none => simp [skipByRecentTxn]
    | some t =>
      simp only [skipByRecentTxn, Option.some.injEq]
      constructor
      · intro h
        split at h
        · refine ⟨t, rfl, by assumption, ?_⟩
          rcases Bool.or_eq_true_iff.mp h with h' | h'
          · exact Or.inl (by simpa using h')
          · exact Or.inr (by simpa using h')
        · simp at h
      · rintro ⟨t', rfl, htime, hstat⟩
        rw [if_pos htime]
        rcases hstat with h | h <;> simp [h]
  · intro org recent hasPM so now hskip
    unfold processOrgTopUp
    rw [hskip]
    simp

/-- C5 amended witness: a pending transaction 30 minutes old causes the
pass to skip the organization. -/
theorem autoTopUp_skip_amended_witness :
    processOrgTopUp { credits := 1, autoTopUpThreshold := some 20, autoTopUpAmount := none }
      (some { createdAt := 5400000, status := .pending }) true .succeeded 7200000 = none :=
  autoTopUp_skip_amended.2 _ _ _ _ _ (by decide)

/-! ## C8: fallback token estimation -/

/-- C8 counterexample: for a text of length 5 the fallback estimate
`estimateTokensFromContent` is `max(1, round(5/4)) = 1`, whereas
`ceil(5/4) = 2` — the implementation uses `Math.round`, not `ceil`. -/
theorem estimateTokens_round_counterexample :
    estimateTokensFromContent 5 = 1 ∧ ⌈(5 : ℚ) / 4⌉ = 2 := by
  constructor
  · norm_num [estimateTokensFromContent, jsRound]
  · rw [Int.ceil_eq_iff]
    norm_num

/-- C8 amended: the fallback estimate used on the streaming completion
path is `max(1, round(L/4))` (round half up), i.e. `max 1 ((L+2)/4)` in
integer arithmetic — never less than 1 but not `ceil(L/4)`; moreover the
inline fallbacks of `estimateTokens` (unary prompt and completion) divide
by 4 with no rounding and no minimum, and the streaming prompt fallback
rounds but has no minimum, so those estimates can be fractional or 0. -/
theorem estimateTokens_fallback_amended :
    (∀ L : ℕ, estimateTokensFromContent L = ((max 1 ((L + 2) / 4) : ℕ) : ℤ))
    ∧ (∀ L : ℕ, 1 ≤ estimateTokensFromContent L)
    ∧ unaryCompletionFallback 2 = 1 / 2
    ∧ unaryPromptFallback [] = 0
    ∧ streamingPromptFallback [1] = 0 := by
  refine ⟨?_, ?_, by norm_num [unaryCompletionFallback],
    by norm_num [unaryPromptFallback], by norm_num [streamingPromptFallback, jsRound]⟩
  · intro L
    unfold estimateTokensFromContent jsRound
    have h : (L : ℚ) / 4 + 1 / 2 = ((L + 2 : ℕ) : ℚ) / ((4 : ℕ) : ℚ) := by
      push_cast
      ring
    rw [h, Rat.floor_natCast_div_natCast]
    push_cast [Nat.cast_max]
    rfl
  · intro L
    unfold estimateTokensFromContent
    exact le_max_left 1 _

/-- C8 amended witness: instantiates the characterization at `L = 5`. -/
theorem estimateTokens_fallback_amended_witness :
    estimateTokensFromContent 5 = ((max 1 ((5 + 2) / 4) : ℕ) : ℤ) :=
  estimateTokens_fallback_amended.1 5

/-! ## Handler helper lemmas -/

lemma handle_of_ok {env : Env} {ctx : RouteCtx} (hok : preRoute env = .ok ctx) :
    handle env = afterRoute env ctx := by
  unfold handle
  rw [hok]

lemma authenticate_malformed (env : Env) (a : String) (hsome : env.authHeader = some a)
    (hlen : (jsSplit a "Bearer ").length ≠ 2) :
    authenticate env = .error ⟨401, "Unauthorized: Invalid Authorization header format. "
      ++ "Expected 'Bearer your-api-token'"⟩ := by
  unfold authenticate
  rw [hsome]
  show (if (jsSplit a "Bearer ").length ≠ 2 then _ else _) = _
  exact if_pos hlen

lemma authenticate_unknown_token (env : Env) (a t : String)
    (hsome : env.authHeader = some a) (hsplit : jsSplit a "Bearer " = ["", t])
    (ht : t ≠ "") (hlook : env.apiKeyLookup t = none) :
    authenticate env = .error ⟨401, "Unauthorized: Invalid LLMGateway API token. "
      ++ "Please make sure the token is not deleted or disabled. "
      ++ "Go to the LLMGateway 'API Keys' page to generate a new token."⟩ := by
  unfold authenticate
  rw [hsome]
  show (if (jsSplit a "Bearer ").length ≠ 2 then _ else _) = _
  rw [hsplit, if_neg (by simp)]
  show (if t = "" then _ else _) = _
  rw [if_neg ht, show (["", t] : List String).getD 1 "" = t from rfl, hlook]

lemma authenticate_accepts_any_found_key (env : Env) (a t : String) (k : ApiKey)
    (hsome : env.authHeader = some a) (hsplit : jsSplit a "Bearer " = ["", t])
    (ht : t ≠ "") (hlook : env.apiKeyLookup t = some k) :
    authenticate env = .ok k := by
  unfold authenticate
  rw [hsome]
  show (if (jsSplit a "Bearer ").length ≠ 2 then _ else _) = _
  rw [hsplit, if_neg (by simp)]
  show (if t = "" then _ else _) = _
  rw [if_neg ht, show (["", t] : List String).getD 1 "" = t from rfl, hlook]

/-! ## C7: authentication failure modes and their ordering -/

/-- C7 counterexample: a request with no Authorization header at all but
an unknown model (`mythical-1`) is answered with the 400 model-validation
error, not with 401 — body validation runs before authentication. -/
theorem auth_after_validation_counterexample :
    (handle envNoAuthUnknownModel).outcome
      = .errorThrown ⟨400, "Requested model mythical-1 not supported"⟩
    ∧ (400 : ℕ) ≠ 401 :=
  ⟨by rfl, by decide⟩

/-- C7 amended: model validation runs BEFORE authentication, so an
invalid body short-circuits with its own (400/410) error even when the
Authorization header is missing or bad; once the model validates, a
missing header, a malformed header, and an unknown token each yield 401;
a token that is found is accepted without any check of its status, so a
disabled-but-present token is NOT rejected. -/
theorem auth_failure_modes_amended (env : Env) :
    (∀ e, validateModel env = .error e →
      handle env = ⟨.errorThrown e, [], false, none⟩)
    ∧ (∀ mc, validateModel env = .ok mc → env.authHeader = none →
      handle env = ⟨.errorThrown ⟨401, "Unauthorized: No Authorization header provided. "
        ++ "Expected 'Bearer your-api-token'"⟩, [], false, none⟩)
    ∧ (∀ mc a, validateModel env = .ok mc → env.authHeader = some a →
      (jsSplit a "Bearer ").length ≠ 2 →
      handle env = ⟨.errorThrown ⟨401, "Unauthorized: Invalid Authorization header format. "
        ++ "Expected 'Bearer your-api-token'"⟩, [], false, none⟩)
    ∧ (∀ mc a t, validateModel env = .ok mc → env.authHeader = some a →
      jsSplit a "Bearer " = ["", t] → t ≠ "" → env.apiKeyLookup t = none →
      handle env = ⟨.errorThrown ⟨401, "Unauthorized: Invalid LLMGateway API token. "
        ++ "Please make sure the token is not deleted or disabled. "
        ++ "Go to the LLMGateway 'API Keys' page to generate a new token."⟩, [], false, none⟩)
    ∧ (∀ a t k, env.authHeader = some a → jsSplit a "Bearer " = ["", t] → t ≠ "" →
      env.apiKeyLookup t = some k → authenticate env = .ok k) := by
  refine ⟨?_, ?_, ?_, ?_, ?_⟩
  · intro e hval
    unfold handle preRoute
    rw [hval]
    rfl
  · intro mc hval hnone
    have hauth : authenticate env = .error ⟨401,
        "Unauthorized: No Authorization header provided. "
        ++ "Expected 'Bearer your-api-token'"⟩ := by
      unfold authenticate
      rw [hnone]
    unfold handle preRoute
    rw [hval, hauth]
    rfl
  · intro mc a hval hsome hlen
    unfold handle preRoute
    rw [hval, authenticate_malformed env a hsome hlen]
    rfl
  · intro mc a t hval hsome hsplit ht hlook
    unfold handle preRoute
    rw [hval, authenticate_unknown_token env a t hsome hsplit ht hlook]
    rfl
  · intro a t k hsome hsplit ht hlook
    exact authenticate_accepts_any_found_key env a t k hsome hsplit ht hlook

/-- C7 amended witness: missing Authorization header with a valid model
yields 401. -/
theorem auth_failure_modes_amended_witness :
    handle { demoEnv with authHeader := none }
      = ⟨.errorThrown ⟨401, "Unauthorized: No Authorization header provided. "
          ++ "Expected 'Bearer your-api-token'"⟩, [], false, none⟩ :=
  (auth_failure_modes_amended { demoEnv with authHeader := none }).2.1
    ⟨⟨"gpt-4o", none, none⟩, demoModel⟩ rfl rfl

/-! ## C6: cache hit short-circuits dispatch -/

/-- C6: a non-streaming request on a project with caching enabled whose
key is in the cache returns the cached response, never dispatches
upstream, and writes exactly one log row with `cached = true`, zero
duration and zero cost in every cost bucket. -/
theorem cache_hit_short_circuits (env : Env) (ctx : RouteCtx) (r : CachedResponse)
    (hok : preRoute env = .ok ctx) (hstream : env.req.stream = false)
    (hcache : env.cachingEnabled = true)
    (hhit : env.cacheGet (cacheKeyOf env ctx) = some r) :
    (handle env).outcome = .cachedJson r
    ∧ (handle env).dispatched = false
    ∧ ∃ row, (handle env).logs = [row]
        ∧ row.cached = true ∧ row.duration = 0
        ∧ row.inputCost = some 0 ∧ row.outputCost = some 0
        ∧ row.cachedInputCost = some 0 ∧ row.requestCost = some 0
        ∧ row.cost = some 0 ∧ row.estimatedCost = some false
        ∧ row.hasError = false ∧ row.streamed = false ∧ row.canceled = false := by
  rw [handle_of_ok hok]
  simp [afterRoute, hstream, hcache, hhit]

/-- C6 witness: a concrete credits-mode cache hit. -/
theorem cache_hit_short_circuits_witness :
    (handle envCacheHit).outcome = .cachedJson demoCached
    ∧ (handle envCacheHit).dispatched = false :=
  ⟨(cache_hit_short_circuits envCacheHit demoCtx demoCached rfl rfl rfl rfl).1,
   (cache_hit_short_circuits envCacheHit demoCtx demoCached rfl rfl rfl rfl).2.1⟩

/-! ## C1: one log row per request -/

/-- C1 counterexample: a request with a valid token but the unknown model
`mythical-1` is rejected by validation before any `insertLog` call — zero
log rows, not one. -/
theorem one_log_row_counterexample :
    (handle envAuthedUnknownModel).logs = []
    ∧ (handle envAuthedUnknownModel).outcome
      = .errorThrown ⟨400, "Requested model mythical-1 not supported"⟩ :=
  ⟨rfl, rfl⟩

/-- C1 amended: exactly one log row is produced by every request that
reaches upstream dispatch — for the unary cancel / HTTP-error / success
outcomes and the streaming cancel / HTTP-error / body outcomes — and by
every cache hit; requests rejected before dispatch (validation, auth,
routing, credential and gate errors) produce no log row, as do a
streaming response with a missing body and rethrown transport errors. -/
theorem one_log_per_dispatch_amended (env : Env) (ctx : RouteCtx)
    (hok : preRoute env = .ok ctx) :
    ((handle env).dispatched = true → env.req.stream = false →
      env.unaryFetch ≠ .transportError → (handle env).logs.length = 1)
    ∧ ((handle env).dispatched = true → env.req.stream = true →
      env.streamFetch ≠ .transportError → env.streamFetch ≠ .okNoBody →
      (handle env).logs.length = 1)
    ∧ (∀ r, (handle env).outcome = .cachedJson r → (handle env).logs.length = 1)
    ∧ ((handle env).dispatched = false →
      (∀ r, (handle env).outcome ≠ .cachedJson r) → (handle env).logs = []) := by
  rw [handle_of_ok hok]
  unfold afterRoute
  split
  case isTrue =>
    cases hcg : env.cacheGet (cacheKeyOf env ctx) with
    | some cr => simp [hcg]
    | none =>
      simp only [hcg, Option.some_bind]
      split
      · simp
      · split
        · simp
        · split
          · rename_i hstr
            cases hsf : env.streamFetch <;> simp_all [streamDispatch]
          · cases huf : env.unaryFetch <;> simp_all
  case isFalse =>
    simp only [Option.none_bind]
    split
    · simp
    · split
      · simp
      · split
        · rename_i hstr
          cases hsf : env.streamFetch <;> simp_all [streamDispatch]
        · cases huf : env.unaryFetch <;> simp_all

/-- C1 amended witness: a concrete dispatched success logs exactly once. -/
theorem one_log_per_dispatch_amended_witness :
    (handle demoEnv).logs.length = 1 :=
  (one_log_per_dispatch_amended demoEnv demoCtx rfl).1 rfl rfl (by decide)

/-! ## C4: the terminal SSE event -/

lemma stepLine_doneLine_getLast (p : String) (m : List ℕ) (st : StreamState) :
    ((stepLine p m st .doneLine).events).getLast? = some SSEEvent.doneEvent := by
  simp only [stepLine]
  split
  · exact List.getLast?_append_of_ne_nil _ (by simp)
  · exact List.getLast?_append_of_ne_nil _ (by simp)

lemma streamFinally_getLast (base : BaseLogEntry) (m : List ℕ)
    (ecl : Option ℕ) (el : String → Option ℕ) (costs : Costs) (ems : ℕ)
    (st : StreamState) (c : Bool)
    (h : (st.events).getLast? = some SSEEvent.doneEvent) :
    ((streamFinally base m ecl el costs ems st c).events).getLast?
      = some SSEEvent.doneEvent := by
  simp only [streamFinally]
  repeat' split
  all_goals first
    | exact List.getLast?_append_of_ne_nil _ (by simp)
    | exact h

/-- C4 counterexample: an anthropic stream that reports complete usage
(`message_start` with `input_tokens`, `message_delta` with
`output_tokens` and a stop reason, then `message_stop`) produces only
data chunks — the response ends with NO `done: [DONE]` event at all. -/
theorem stream_done_counterexample :
    (handle envStreamNoDone).outcome
      = .sse [SSEEvent.dataChunk, SSEEvent.dataChunk, SSEEvent.dataChunk,
              SSEEvent.dataChunk]
    ∧ ([SSEEvent.dataChunk, SSEEvent.dataChunk, SSEEvent.dataChunk,
        SSEEvent.dataChunk].getLast? = some SSEEvent.doneEvent → False) :=
  ⟨rfl, by decide⟩

/-- C4 amended: the canceled-fetch, upstream-HTTP-error and missing-body
streaming paths each terminate with `done: [DONE]`, and so does any
SSE-framed stream whose upstream body ends with a `data: [DONE]` line;
but a transport error produces no events at all, and (per the
counterexample) an SSE stream that ends without `data: [DONE]` while
upstream reported both token counts terminates without a done event. -/
theorem stream_terminal_done_amended (env : Env) (base : BaseLogEntry) (p : String) :
    (env.streamFetch = .abortError →
      (streamDispatch env base p).events = [SSEEvent.canceledEvent, SSEEvent.doneEvent])
    ∧ (∀ s tl, env.streamFetch = .httpError s tl →
      (streamDispatch env base p).events = [SSEEvent.errorEvent, SSEEvent.doneEvent])
    ∧ (env.streamFetch = .okNoBody →
      (streamDispatch env base p).events = [SSEEvent.errorEvent, SSEEvent.doneEvent])
    ∧ (env.streamFetch = .transportError → (streamDispatch env base p).events = [])
    ∧ (∀ lines ab, env.streamFetch = .ok (.sse (lines ++ [.doneLine]) ab) →
      ((streamDispatch env base p).events).getLast? = some SSEEvent.doneEvent) := by
  refine ⟨?_, ?_, ?_, ?_, ?_⟩
  · intro h
    simp [streamDispatch, h]
  · intro s tl h
    simp [streamDispatch, h]
  · intro h
    simp [streamDispatch, h]
  · intro h
    simp [streamDispatch, h]
  · intro lines ab h
    simp only [streamDispatch, h, runStreamBody]
    rw [List.foldl_append]
    simp only [List.foldl_cons, List.foldl_nil]
    exact streamFinally_getLast _ _ _ _ _ _ _ _ (stepLine_doneLine_getLast _ _ _)

/-- C4 amended witness: the upstream-error path of a concrete anthropic
streaming request ends with `error` then `done`. -/
theorem stream_terminal_done_amended_witness :
    (streamDispatch envStreamHttpError
      (createLogEntry "req1" ⟨"proj1", "org1", "credits"⟩ ⟨"ak1", "proj1", "active"⟩
        none "claude-3-prov" "anthropic" "anthropic/claude-3" (some "anthropic"))
      "anthropic").events = [SSEEvent.errorEvent, SSEEvent.doneEvent] :=
  (stream_terminal_done_amended envStreamHttpError _ "anthropic").2.1 502 7 rfl

/-! ## C10: `usedMode` reflects the credential path actually used -/

lemma exbind_ok {α β : Type} (a : α) (f : α → Except HErr β) :
    (Except.ok a >>= f) = f a := rfl

lemma exbind_error {α β : Type} (e : HErr) (f : α → Except HErr β) :
    ((Except.error e : Except HErr α) >>= f) = .error e := rfl

lemma exbind_pure {α β : Type} (a : α) (f : α → Except HErr β) :
    ((pure a : Except HErr α) >>= f) = f a := rfl

lemma expure_eq_ok {α : Type} (a : α) : (pure a : Except HErr α) = Except.ok a := rfl

lemma streamDispatch_logs_base (env : Env) (base : BaseLogEntry) (p : String) :
    ∀ row ∈ (streamDispatch env base p).logs, row.base = base := by
  intro row hrow
  cases h : env.streamFetch <;> simp only [streamDispatch, h, List.mem_singleton,
    List.not_mem_nil] at hrow <;>
    first
      | exact absurd hrow (by simp)
      | exact False.elim hrow
      | (subst hrow; rfl)

lemma afterRoute_logs_base (env : Env) (ctx : RouteCtx) :
    ∀ row ∈ (afterRoute env ctx).logs,
      row.base = createLogEntry env.requestId ctx.project ctx.apiKey
        (ctx.providerKey.map (·.id)) ctx.usedModel ctx.usedProvider
        ctx.pm.requestedModel ctx.pm.requestedProvider := by
  unfold afterRoute
  split
  case isTrue =>
    cases hcg : env.cacheGet (cacheKeyOf env ctx) with
    | some cr =>
      intro row hrow
      simp only [hcg, Option.some_bind, List.mem_singleton] at hrow
      subst hrow
      rfl
    | none =>
      simp only [hcg, Option.some_bind]
      split
      · simp
      · split
        · simp
        · split
          · intro row hrow
            exact streamDispatch_logs_base env _ ctx.usedProvider row hrow
          · intro row hrow
            cases h : env.unaryFetch <;> rw [h] at hrow <;>
              simp only [List.mem_singleton, List.not_mem_nil] at hrow <;>
              first
                | exact False.elim hrow
                | (subst hrow; rfl)
  case isFalse =>
    simp only [Option.none_bind]
    split
    · simp
    · split
      · simp
      · split
        · intro row hrow
          exact streamDispatch_logs_base env _ ctx.usedProvider row hrow
        · intro row hrow
          cases h : env.unaryFetch <;> rw [h] at hrow <;>
            simp only [List.mem_singleton, List.not_mem_nil] at hrow <;>
            first
              | exact False.elim hrow
              | (subst hrow; rfl)

lemma credentialResolve_spec (env : Env) (project : Project) (up : String)
    (cpn : Option String) (pk : Option ProviderKey) (tok : String)
    (h : credentialResolve env project up cpn = .ok (pk, tok)) :
    (∀ k, pk = some k → tok = k.token)
    ∧ (project.mode = "credits" → pk = none)
    ∧ (project.mode = "hybrid" →
        pk = (if up = "custom" ∧ cpn.isSome
          then env.customProviderKeyLookup project.organizationId (cpn.getD "")
          else env.providerKeyLookup project.organizationId up))
    ∧ (project.mode = "api-keys" → pk.isSome) := by
  unfold credentialResolve at h
  split at h
  · rename_i hmode
    split at h
    · cases hk : env.customProviderKeyLookup project.organizationId (cpn.getD "") with
      | none =>
        rw [hk] at h
        exact absurd h (by simp)
      | some k =>
        rw [hk] at h
        simp only [Except.ok.injEq, Prod.mk.injEq] at h
        obtain ⟨hpk, htok⟩ := h
        subst hpk
        subst htok
        refine ⟨?_, ?_, ?_, ?_⟩
        · intro k' hk'
          simp only [Option.some.injEq] at hk'
          subst hk'
          rfl
        · intro hc
          rw [hmode] at hc
          exact absurd hc (by decide)
        · intro hc
          rw [hmode] at hc
          exact absurd hc (by decide)
        · intro _
          rfl
    · cases hk : env.providerKeyLookup project.organizationId up with
      | none =>
        rw [hk] at h
        exact absurd h (by simp)
      | some k =>
        rw [hk] at h
        simp only [Except.ok.injEq, Prod.mk.injEq] at h
        obtain ⟨hpk, htok⟩ := h
        subst hpk
        subst htok
        refine ⟨?_, ?_, ?_, ?_⟩
        · intro k' hk'
          simp only [Option.some.injEq] at hk'
          subst hk'
          rfl
        · intro hc
          rw [hmode] at hc
          exact absurd hc (by decide)
        · intro hc
          rw [hmode] at hc
          exact absurd hc (by decide)
        · intro _
          rfl
  · split at h
    · rename_i hmode1 hmode
      split at h
      · exact absurd h (by simp)
      · split at h
        · exact absurd h (by simp)
        · cases hp : providerTokenFromEnv env up with
          | error e =>
            rw [hp] at h
            exact absurd h (by simp [exbind_error])
          | ok t =>
            rw [hp] at h
            simp only [exbind_ok, expure_eq_ok, Except.ok.injEq, Prod.mk.injEq] at h
            obtain ⟨hpk, htok⟩ := h
            subst hpk
            subst htok
            refine ⟨?_, ?_, ?_, ?_⟩
            · intro k' hk'
              exact absurd hk' (by simp)
            · intro _
              rfl
            · intro hc
              rw [hmode] at hc
              exact absurd hc (by decide)
            · intro hc
              rw [hmode] at hc
              exact absurd hc (by decide)
    · split at h
      · rename_i hmode1 hmode2 hmode
        split at h
        · rename_i hcond
          cases hk : env.customProviderKeyLookup project.organizationId (cpn.getD "") with
          | some k =>
            rw [hk] at h
            simp only [Except.ok.injEq, Prod.mk.injEq] at h
            obtain ⟨hpk, htok⟩ := h
            subst hpk
            subst htok
            refine ⟨?_, ?_, ?_, ?_⟩
            · intro k' hk'
              simp only [Option.some.injEq] at hk'
              subst hk'
              rfl
            · intro hc
              rw [hmode] at hc
              exact absurd hc (by decide)
            · intro _
              rw [if_pos hcond]
            · intro hc
              rw [hmode] at hc
              exact absurd hc (by decide)
          | none =>
            rw [hk] at h
            simp only [] at h
            split at h
            · exact absurd h (by simp)
            · split at h
              · exact absurd h (by simp)
              · cases hp : providerTokenFromEnv env up with
                | error e =>
                  rw [hp] at h
                  exact absurd h (by simp [exbind_error])
                | ok t =>
                  rw [hp] at h
                  simp only [exbind_ok, expure_eq_ok, Except.ok.injEq, Prod.mk.injEq] at h
                  obtain ⟨hpk, htok⟩ := h
                  subst hpk
                  subst htok
                  refine ⟨?_, ?_, ?_, ?_⟩
                  · intro k' hk'
                    exact absurd hk' (by simp)
                  · intro _
                    rfl
                  · intro _
                    rw [if_pos hcond]
                  · intro hc
                    rw [hmode] at hc
                    exact absurd hc (by decide)
        · rename_i hcond
          cases hk : env.providerKeyLookup project.organizationId up with
          | some k =>
            rw [hk] at h
            simp only [Except.ok.injEq, Prod.mk.injEq] at h
            obtain ⟨hpk, htok⟩ := h
            subst hpk
            subst htok
            refine ⟨?_, ?_, ?_, ?_⟩
            · intro k' hk'
              simp only [Option.some.injEq] at hk'
              subst hk'
              rfl
            · intro hc
              rw [hmode] at hc
              exact absurd hc (by decide)
            · intro _
              rw [if_neg hcond]
            · intro hc
              rw [hmode] at hc
              exact absurd hc (by decide)
          | none =>
            rw [hk] at h
            simp only [] at h
            split at h
            · exact absurd h (by simp)
            · split at h
              · exact absurd h (by simp)
              · cases hp : providerTokenFromEnv env up with
                | error e =>
                  rw [hp] at h
                  exact absurd h (by simp [exbind_error])
                | ok t =>
                  rw [hp] at h
                  simp only [exbind_ok, expure_eq_ok, Except.ok.injEq, Prod.mk.injEq] at h
                  obtain ⟨hpk, htok⟩ := h
                  subst hpk
                  subst htok
                  refine ⟨?_, ?_, ?_, ?_⟩
                  · intro k' hk'
                    exact absurd hk' (by simp)
                  · intro _
                    rfl
                  · intro _
                    rw [if_neg hcond]
                  · intro hc
                    rw [hmode] at hc
                    exact absurd hc (by decide)
      · exact absurd h (by simp)

lemma exthrow_eq_error {α : Type} (e : HErr) :
    (throw e : Except HErr α) = Except.error e := rfl

lemma exbind_eq_ok {α β : Type} {x : Except HErr α} {f : α → Except HErr β} {b : β}
    (h : (x >>= f) = .ok b) : ∃ a, x = .ok a ∧ f a = .ok b := by
  cases x with
  | error e => rw [exbind_error] at h; exact absurd h (by simp)
  | ok a => exact ⟨a, rfl, by rwa [exbind_ok] at h⟩

set_option maxHeartbeats 4000000 in
lemma preRoute_credential (env : Env) (ctx : RouteCtx)
    (hok : preRoute env = .ok ctx) :
    credentialResolve env ctx.project ctx.usedProvider ctx.pm.customProviderName
      = .ok (ctx.providerKey, ctx.usedToken) := by
  unfold preRoute at hok
  obtain ⟨mc, hv, hok⟩ := exbind_eq_ok hok
  obtain ⟨apiKey, ha, hok⟩ := exbind_eq_ok hok
  simp only [] at hok
  split at hok
  next =>
    rw [exthrow_eq_error, exbind_error] at hok
    exact absurd hok (by simp)
  next p hp =>
    rw [exbind_pure] at hok
    split at hok
    next n hn hcn =>
      cases hcp : env.customProviderExists p.organizationId n with
      | false =>
        rw [hcp, if_pos (by simp)] at hok
        rw [exthrow_eq_error, exbind_error] at hok
        exact absurd hok (by simp)
      | true =>
        rw [hcp, if_neg (by simp)] at hok
        rw [exbind_pure] at hok
        obtain ⟨route, hr, hok⟩ := exbind_eq_ok hok
        split at hok
        · rw [exthrow_eq_error, exbind_error] at hok
          exact absurd hok (by simp)
        · rw [exbind_pure] at hok
          split at hok
          · rw [exthrow_eq_error, exbind_error] at hok
            exact absurd hok (by simp)
          · rw [exbind_pure] at hok
            obtain ⟨cred, hcred, hok⟩ := exbind_eq_ok hok
            split at hok
            · rw [exthrow_eq_error, exbind_error] at hok
              exact absurd hok (by simp)
            · rw [exbind_pure] at hok
              split at hok
              · split at hok
                · rw [exthrow_eq_error, exbind_error] at hok
                  exact absurd hok (by simp)
                · rw [exbind_pure] at hok
                  simp only [expure_eq_ok, Except.ok.injEq] at hok
                  subst hok
                  exact hcred
              · rw [exthrow_eq_error, exbind_error] at hok
                exact absurd hok (by simp)
              · split at hok
                · rw [exthrow_eq_error, exbind_error] at hok
                  exact absurd hok (by simp)
                · rw [exthrow_eq_error, exbind_error] at hok
                  exact absurd hok (by simp)
    next x x1 =>
      rw [exbind_pure] at hok
      obtain ⟨route, hr, hok⟩ := exbind_eq_ok hok
      split at hok
      · rw [exthrow_eq_error, exbind_error] at hok
        exact absurd hok (by simp)
      · rw [exbind_pure] at hok
        split at hok
        · rw [exthrow_eq_error, exbind_error] at hok
          exact absurd hok (by simp)
        · rw [exbind_pure] at hok
          obtain ⟨cred, hcred, hok⟩ := exbind_eq_ok hok
          split at hok
          · rw [exthrow_eq_error, exbind_error] at hok
            exact absurd hok (by simp)
          · rw [exbind_pure] at hok
            split at hok
            · split at hok
              · rw [exthrow_eq_error, exbind_error] at hok
                exact absurd hok (by simp)
              · rw [exbind_pure] at hok
                simp only [expure_eq_ok, Except.ok.injEq] at hok
                subst hok
                exact hcred
            · rw [exthrow_eq_error, exbind_error] at hok
              exact absurd hok (by simp)
            · split at hok
              · rw [exthrow_eq_error, exbind_error] at hok
                exact absurd hok (by simp)
              · rw [exthrow_eq_error, exbind_error] at hok
                exact absurd hok (by simp)

/-- **C10**: a log row's `usedMode` is `"api-keys"` exactly when a stored
provider key supplied the upstream credential, and `"credits"` otherwise,
independently of the project's configured mode, which is recorded
separately in `mode`.  Concretely: the stored key and bearer token of a
successfully routed context are exactly what `credentialResolve`
returned, so `credits` mode forces no stored key, `api-keys` mode forces
one, `hybrid` mode uses the stored key found for the provider (and falls
back to the env credential with no stored key otherwise) — and every log
row of the request sets `usedMode` by whether that stored key is present
(its id being non-empty), with the configured project mode recorded
separately in `mode`. -/
theorem usedMode_reflects_credential_path (env : Env) (ctx : RouteCtx)
    (hok : preRoute env = .ok ctx)
    (hid : ∀ k, ctx.providerKey = some k → k.id ≠ "") :
    (credentialResolve env ctx.project ctx.usedProvider ctx.pm.customProviderName
        = .ok (ctx.providerKey, ctx.usedToken))
    ∧ (ctx.project.mode = "credits" → ctx.providerKey = none)
    ∧ (ctx.project.mode = "hybrid" →
        ctx.providerKey
          = (if ctx.usedProvider = "custom" ∧ ctx.pm.customProviderName.isSome
             then env.customProviderKeyLookup ctx.project.organizationId
                    (ctx.pm.customProviderName.getD "")
             else env.providerKeyLookup ctx.project.organizationId ctx.usedProvider))
    ∧ (ctx.project.mode = "api-keys" → ctx.providerKey.isSome)
    ∧ (∀ row ∈ (handle env).logs,
        row.base.usedMode
          = (if ctx.providerKey.isSome then "api-keys" else "credits")
        ∧ row.base.mode = ctx.project.mode) := by
  have h1 := preRoute_credential env ctx hok
  obtain ⟨-, h2, h3, h4⟩ := credentialResolve_spec env ctx.project ctx.usedProvider
    ctx.pm.customProviderName ctx.providerKey ctx.usedToken h1
  refine ⟨h1, h2, h3, h4, ?_⟩
  intro row hrow
  rw [handle_of_ok hok] at hrow
  have hbase := afterRoute_logs_base env ctx row hrow
  rw [hbase]
  refine ⟨?_, rfl⟩
  show (if strTruthy (ctx.providerKey.map (fun k => k.id)) then "api-keys" else "credits") = _
  cases hpk : ctx.providerKey with
  | none => rfl
  | some k =>
    have hne : k.id ≠ "" := hid k hpk
    simp [strTruthy, hne]

/-- C10 witness: the concrete credits-mode request routes with no stored
provider key. -/
theorem usedMode_reflects_credential_path_witness :
    preRoute demoEnv = Except.ok demoCtx
    ∧ (demoCtx.project.mode = "credits" → demoCtx.providerKey = none) :=
  ⟨rfl, (usedMode_reflects_credential_path demoEnv demoCtx rfl
      (fun k hk => absurd hk (by simp [demoCtx]))).2.1⟩

end LLMGateway